import Mathlib

/-!
Verification development for the IB broker-connectivity adapter
(`vnpy_ib/ib_gateway_jason.py`).

The Python source is shallowly embedded: pure helpers become Lean
functions, the mutable `IbApi` object becomes an explicit state record
threaded through handler functions, and Python exceptions become an
explicit `PyError` channel (an `except IndexError` clause catches only
`indexError`; every other error propagates).  Python `float` values that
flow through the symbol codec are modelled as exact decimal values
(sign, integer part, fraction digits); this matches CPython's
parse/repr behaviour on the short decimal literals that appear in
canonical symbols (repr of a float parsed from a decimal literal of at
most 15 significant digits is the normalized literal).
-/

/-- Python exception kinds that the embedded code can raise. -/
inductive PyError
  | indexError
  | valueError
  | keyError
  | attributeError
deriving DecidableEq, Repr

/-! ### Characters and digits (models of Python `str`/`int`/`float` conversions) -/

/-- Map a decimal digit value to its character; digits ≥ 9 clamp to `'9'`
(never reached on the digit lists produced by `Nat.digits 10`). -/
def digitToChar : Nat → Char
  | 0 => '0'
  | 1 => '1'
  | 2 => '2'
  | 3 => '3'
  | 4 => '4'
  | 5 => '5'
  | 6 => '6'
  | 7 => '7'
  | 8 => '8'
  | _ => '9'

/-- Inverse of `digitToChar` on digit characters. -/
def charToDigit (c : Char) : Nat := c.toNat - 48

/-- Numeric value of a big-endian list of digit characters. -/
def charsVal (cs : List Char) : Nat :=
  cs.foldl (fun a c => a * 10 + charToDigit c) 0

/-- Fuel-driven big-endian decimal printer (structural recursion so the
kernel can evaluate it). -/
def natDigitsAux : Nat → Nat → List Char
  | 0, _ => []
  | fuel + 1, n => if n = 0 then [] else natDigitsAux fuel (n / 10) ++ [digitToChar (n % 10)]

/-- Big-endian decimal digit characters of a natural number (Python `str(n)`). -/
def natToChars (n : Nat) : List Char :=
  if n = 0 then ['0'] else natDigitsAux n n

instance {ε α : Type} [DecidableEq ε] [DecidableEq α] : DecidableEq (Except ε α)
  | Except.ok x, Except.ok y =>
    if h : x = y then Decidable.isTrue (by rw [h]) else Decidable.isFalse (by simp [h])
  | Except.error x, Except.error y =>
    if h : x = y then Decidable.isTrue (by rw [h]) else Decidable.isFalse (by simp [h])
  | Except.ok _, Except.error _ => Decidable.isFalse (by simp)
  | Except.error _, Except.ok _ => Decidable.isFalse (by simp)

/-- Python `str` of a natural number. -/
def pyStrNat (n : Nat) : String := String.mk (natToChars n)

/-- Python `str` of an `int`. -/
def pyStrInt (m : Int) : String :=
  String.mk ((if m < 0 then ['-'] else []) ++ natToChars m.natAbs)

/-- Parse a nonempty all-digit character list (helper for Python `int()`). -/
def parseNatChars (cs : List Char) : Option Nat :=
  if cs.isEmpty then none
  else if cs.all Char.isDigit then some (charsVal cs) else none

/-- Model of Python `int(s)` on its core grammar: an optional `'-'` sign
followed by one or more decimal digits.  (CPython additionally accepts
surrounding whitespace, a `'+'` sign and `'_'` separators; none of those
occur in canonical symbols.) -/
def parseIntChars (cs : List Char) : Option Int :=
  match cs with
  | [] => none
  | c :: cs' =>
    if c = '-' then (parseNatChars cs').map (fun n => -(n : Int))
    else (parseNatChars (c :: cs')).map (fun n => (n : Int))

/-- Python `int(s)`: `ValueError` when the string does not parse. -/
def pyIntF (s : String) : Except PyError Int :=
  match parseIntChars s.toList with
  | some i => Except.ok i
  | none => Except.error PyError.valueError

/-- Exact decimal value of a Python `float` as it appears in the codec:
sign, integer part, and fraction digits with no trailing zero
(the normal form produced by parsing).  `{neg := false, ip := 0, frac := []}`
is the `ibapi` default strike `0.0`. -/
structure PyFloatVal where
  neg : Bool := false
  ip : Nat := 0
  frac : List Nat := []
deriving DecidableEq, Repr

/-- Drop trailing zero digits of a fraction digit list. -/
def stripTrailZeros (l : List Nat) : List Nat :=
  ((l.reverse.dropWhile (fun d => d == 0)).reverse)

/-- Parse the unsigned part of a Python `float` literal: `digits`,
`digits.digits`, `digits.` or `.digits`. -/
def parseUnsigned (neg : Bool) (cs : List Char) : Option PyFloatVal :=
  let ipcs := cs.takeWhile Char.isDigit
  let rest := cs.dropWhile Char.isDigit
  match rest with
  | [] => if ipcs.isEmpty then none else some { neg := neg, ip := charsVal ipcs, frac := [] }
  | c :: fcs =>
    if c = '.' then
      if fcs.all Char.isDigit then
        if ipcs.isEmpty && fcs.isEmpty then none
        else some { neg := neg, ip := charsVal ipcs,
                    frac := stripTrailZeros (fcs.map charToDigit) }
      else none
    else none

/-- Model of Python `float(s)` on plain decimal literals (optionally
signed).  Exotic inputs CPython also accepts (exponents, `inf`, `nan`,
whitespace, underscores) are outside the canonical-symbol grammar and
are rejected here. -/
def parseFloatChars (cs : List Char) : Option PyFloatVal :=
  match cs with
  | [] => none
  | c :: cs' =>
    if c = '-' then parseUnsigned true cs'
    else parseUnsigned false (c :: cs')

/-- Python `float(s)`: `ValueError` when the string does not parse. -/
def pyFloatF (s : String) : Except PyError PyFloatVal :=
  match parseFloatChars s.toList with
  | some v => Except.ok v
  | none => Except.error PyError.valueError

/-- Python `str`/`repr` of a float holding an exact short decimal:
always prints at least one fraction digit (`str(2430.0) = "2430.0"`). -/
def reprPyFloat (v : PyFloatVal) : String :=
  String.mk ((if v.neg then ['-'] else []) ++ natToChars v.ip
    ++ '.' :: (if v.frac.isEmpty then [0] else v.frac).map digitToChar)

/-! ### Python `str.split` / `str.join` -/

/-- Python `s.split(sep)` for a single-character separator, on the
character list of `s`.  `pySplit sep [] = [[]]`, matching
`"".split("-") == [""]`. -/
def pySplit (sep : Char) : List Char → List (List Char)
  | [] => [[]]
  | c :: cs =>
    match pySplit sep cs with
    | [] => [[]]
    | f :: rest => if c = sep then [] :: f :: rest else (c :: f) :: rest

/-- Python `sep.join(fields)` for a single-character separator. -/
def pyJoin (sep : Char) : List (List Char) → List Char
  | [] => []
  | [f] => f
  | f :: g :: rest => f ++ sep :: pyJoin sep (g :: rest)

/-- `symbol.split(JOIN_SYMBOL)` with `JOIN_SYMBOL = "-"`. -/
def splitFields (s : String) : List String := (pySplit '-' s.toList).map String.mk

/-- Python `"CMDTY" in s`-style substring membership: prefix test. -/
def listPre : List Char → List Char → Bool
  | [], _ => true
  | _ :: _, [] => false
  | a :: as, b :: bs => a = b && listPre as bs

/-- Python `needle in hay` substring membership. -/
def listSub (needle : List Char) : List Char → Bool
  | [] => needle.isEmpty
  | c :: t => listPre needle (c :: t) || listSub needle t

/-- Python substring containment `needle in hay`. -/
def strContains (hay needle : String) : Bool := listSub needle.toList hay.toList

/-- Python list indexing `l[i]` with negative-index wraparound;
out-of-range raises `IndexError`. -/
def pyGet (l : List String) (i : Int) : Except PyError String :=
  let j : Int := if i < 0 then i + l.length else i
  if 0 ≤ j ∧ j < (l.length : Int) then Except.ok (l.getD j.toNat "")
  else Except.error PyError.indexError

/-! ### vnpy constants used by the gateway (from `vnpy.trader.constant`) -/

/-- vnpy `Exchange` enum members referenced by the gateway's mapping
table, plus `CFFEX` as a representative member absent from
`EXCHANGE_VT2IB`. -/
inductive Exchange
  | SMART | NYMEX | COMEX | GLOBEX | IDEALPRO | CME | CBOT | CBOE | ICE
  | SEHK | SSE | SZSE | HKFE | CFE | TSE | NYSE | NASDAQ | AMEX | ARCA
  | EDGEA | ISLAND | BATS | IEX | IBKRATS | OTC | SGX | CFFEX
deriving DecidableEq, Repr

/-- The string `.value` of each vnpy `Exchange` enum member (used to
form `vt_symbol`). -/
def Exchange.value : Exchange → String
  | .SMART => "SMART" | .NYMEX => "NYMEX" | .COMEX => "COMEX"
  | .GLOBEX => "GLOBEX" | .IDEALPRO => "IDEALPRO" | .CME => "CME"
  | .CBOT => "CBOT" | .CBOE => "CBOE" | .ICE => "ICE" | .SEHK => "SEHK"
  | .SSE => "SSE" | .SZSE => "SZSE" | .HKFE => "HKFE" | .CFE => "CFE"
  | .TSE => "TSE" | .NYSE => "NYSE" | .NASDAQ => "NASDAQ" | .AMEX => "AMEX"
  | .ARCA => "ARCA" | .EDGEA => "EDGEA" | .ISLAND => "ISLAND"
  | .BATS => "BATS" | .IEX => "IEX" | .IBKRATS => "IBKRATS"
  | .OTC => "OTC" | .SGX => "SGX" | .CFFEX => "CFFEX"

/-- `EXCHANGE_VT2IB`: vnpy exchange → IB exchange string. -/
def EXCHANGE_VT2IB : Exchange → Option String
  | .SMART => some "SMART" | .NYMEX => some "NYMEX" | .COMEX => some "COMEX"
  | .GLOBEX => some "GLOBEX" | .IDEALPRO => some "IDEALPRO"
  | .CME => some "CME" | .CBOT => some "CBOT" | .CBOE => some "CBOE"
  | .ICE => some "ICE" | .SEHK => some "SEHK" | .SSE => some "SEHKNTL"
  | .SZSE => some "SEHKSZSE" | .HKFE => some "HKFE" | .CFE => some "CFE"
  | .TSE => some "TSE" | .NYSE => some "NYSE" | .NASDAQ => some "NASDAQ"
  | .AMEX => some "AMEX" | .ARCA => some "ARCA" | .EDGEA => some "EDGEA"
  | .ISLAND => some "ISLAND" | .BATS => some "BATS" | .IEX => some "IEX"
  | .IBKRATS => some "IBKRATS" | .OTC => some "PINK" | .SGX => some "SGX"
  | .CFFEX => none

/-- `EXCHANGE_IB2VT`: inverse of `EXCHANGE_VT2IB` (all values distinct). -/
def EXCHANGE_IB2VT (s : String) : Option Exchange :=
  if s = "SMART" then some .SMART else if s = "NYMEX" then some .NYMEX
  else if s = "COMEX" then some .COMEX else if s = "GLOBEX" then some .GLOBEX
  else if s = "IDEALPRO" then some .IDEALPRO else if s = "CME" then some .CME
  else if s = "CBOT" then some .CBOT else if s = "CBOE" then some .CBOE
  else if s = "ICE" then some .ICE else if s = "SEHK" then some .SEHK
  else if s = "SEHKNTL" then some .SSE else if s = "SEHKSZSE" then some .SZSE
  else if s = "HKFE" then some .HKFE else if s = "CFE" then some .CFE
  else if s = "TSE" then some .TSE else if s = "NYSE" then some .NYSE
  else if s = "NASDAQ" then some .NASDAQ else if s = "AMEX" then some .AMEX
  else if s = "ARCA" then some .ARCA else if s = "EDGEA" then some .EDGEA
  else if s = "ISLAND" then some .ISLAND else if s = "BATS" then some .BATS
  else if s = "IEX" then some .IEX else if s = "IBKRATS" then some .IBKRATS
  else if s = "PINK" then some .OTC else if s = "SGX" then some .SGX
  else none

/-! ### IB contract descriptor and the symbol codec -/

/-- The fields of `ibapi.contract.Contract` the gateway reads or
writes.  Defaults are the `ibapi` defaults: empty strings, strike
`0.0`, multiplier `""` (modelled as `none`; after the codec assigns an
`int` it is `some m`). -/
structure Contract where
  symbol : String := ""
  secType : String := ""
  currency : String := ""
  exchange : String := ""
  lastTradeDateOrContractMonth : String := ""
  right : String := ""
  strike : PyFloatVal := {}
  multiplier : Option Int := none
deriving DecidableEq, Repr

instance : Inhabited Contract := ⟨{}⟩

/-- Python `str(ib_contract.multiplier)`: the default `""` prints as
`""`; an assigned `int` prints in decimal. -/
def pyStrMult : Option Int → String
  | none => ""
  | some m => pyStrInt m

/-- `generate_symbol`: encode an IB contract into the canonical
dash-joined vnpy symbol. -/
def generate_symbol (c : Contract) : String :=
  let fields : List String := [c.symbol]
  let fields := if c.secType ∈ ["FUT", "OPT", "FOP"] then
      fields ++ [c.lastTradeDateOrContractMonth] else fields
  let fields := if c.secType ∈ ["OPT", "FOP"] then
      fields ++ [c.right, reprPyFloat c.strike, pyStrMult c.multiplier] else fields
  let fields := fields ++ [c.currency, c.secType]
  String.mk (pyJoin '-' (fields.map String.toList))

/-- The `try` body of `generate_ib_contract`, with Python's statement
order preserved (the `EXCHANGE_VT2IB[exchange]` lookup runs before any
field indexing, so an unmapped exchange raises `KeyError` first). -/
def generate_ib_contract_body (symbol : String) (exchange : Exchange) :
    Except PyError Contract := do
  let fields := splitFields symbol
  let exch ← match EXCHANGE_VT2IB exchange with
    | some s => Except.ok s
    | none => Except.error PyError.keyError
  let secType ← pyGet fields (-1)
  let currency ← pyGet fields (-2)
  let sym ← pyGet fields 0
  let c : Contract := { exchange := exch, secType := secType,
                        currency := currency, symbol := sym }
  let c ← if secType ∈ ["FUT", "OPT", "FOP"] then do
      let lt ← pyGet fields 1
      pure { c with lastTradeDateOrContractMonth := lt }
    else pure c
  let c ← if secType = "FUT" then
      if fields.length = 5 then do
        let ms ← pyGet fields 2
        let m ← pyIntF ms
        pure { c with multiplier := some m }
      else pure c
    else pure c
  let c ← if secType ∈ ["OPT", "FOP"] then do
      let r ← pyGet fields 2
      let ss ← pyGet fields 3
      let sv ← pyFloatF ss
      let ms ← pyGet fields 4
      let m ← pyIntF ms
      pure { c with right := r, strike := sv, multiplier := some m }
    else pure c
  pure c

/-- `generate_ib_contract`: decode a canonical symbol into an IB
contract.  `except IndexError` yields `None` (here `.ok none`); any
other exception — notably `ValueError` from `int`/`float` and
`KeyError` from the exchange lookup — propagates to the caller. -/
def generate_ib_contract (symbol : String) (exchange : Exchange) :
    Except PyError (Option Contract) :=
  match generate_ib_contract_body symbol exchange with
  | Except.error PyError.indexError => Except.ok none
  | Except.error e => Except.error e
  | Except.ok c => Except.ok (some c)

/-! ### Digit and string round-trip lemmas for the codec -/

/-- Join a list of field strings with `"-"`, exactly as `generate_symbol`
assembles its output. -/
def joinSym (l : List String) : String :=
  String.mk (pyJoin '-' (l.map String.toList))

/-- The five-field futures contract from the source file's own header
docstring (`SI-202006-1000-USD-FUT  NYMEX`). -/
def siFutContract : Contract :=
  { symbol := "SI", secType := "FUT", currency := "USD", exchange := "NYMEX",
    lastTradeDateOrContractMonth := "202006", multiplier := some 1000 }

/-- The future-option contract from the source file's header docstring
(`ES-2020006-C-2430-50-USD-FOP  GLOBEX`), with its strike held as the
float value `2430.0`. -/
def esFopContract : Contract :=
  { symbol := "ES", secType := "FOP", currency := "USD", exchange := "GLOBEX",
    lastTradeDateOrContractMonth := "2020006", right := "C",
    strike := { ip := 2430 }, multiplier := some 50 }

/-! ### vnpy trading constants and record types (from `vnpy.trader`) -/

/-- vnpy `Status` enum members. -/
inductive Status
  | SUBMITTING | NOTTRADED | PARTTRADED | ALLTRADED | CANCELLED | REJECTED
deriving DecidableEq, Repr

/-- `STATUS_IB2VT`: IB order-status string → vnpy status; unmapped
strings yield `none`. -/
def STATUS_IB2VT (s : String) : Option Status :=
  if s = "ApiPending" then some Status.SUBMITTING
  else if s = "PendingSubmit" then some Status.SUBMITTING
  else if s = "PreSubmitted" then some Status.NOTTRADED
  else if s = "Submitted" then some Status.NOTTRADED
  else if s = "ApiCancelled" then some Status.CANCELLED
  else if s = "Cancelled" then some Status.CANCELLED
  else if s = "Filled" then some Status.ALLTRADED
  else if s = "Inactive" then some Status.REJECTED
  else none

/-- vnpy `Direction` enum members used by the gateway. -/
inductive Direction
  | LONG | SHORT | NET
deriving DecidableEq, Repr

/-- `DIRECTION_VT2IB`. -/
def DIRECTION_VT2IB : Direction → Option String
  | Direction.LONG => some "BUY"
  | Direction.SHORT => some "SELL"
  | Direction.NET => none

/-- `DIRECTION_IB2VT` (inverse map extended with `BOT`/`SLD`). -/
def DIRECTION_IB2VT (s : String) : Option Direction :=
  if s = "BUY" then some Direction.LONG
  else if s = "SELL" then some Direction.SHORT
  else if s = "BOT" then some Direction.LONG
  else if s = "SLD" then some Direction.SHORT
  else none

/-- vnpy `OrderType` members referenced by the gateway, plus `FAK` as a
representative member absent from `ORDERTYPE_VT2IB`. -/
inductive OrderType
  | LIMIT | MARKET | STOP | FAK
deriving DecidableEq, Repr

/-- `ORDERTYPE_VT2IB`. -/
def ORDERTYPE_VT2IB : OrderType → Option String
  | OrderType.LIMIT => some "LMT"
  | OrderType.MARKET => some "MKT"
  | OrderType.STOP => some "STP"
  | OrderType.FAK => none

/-- `ORDERTYPE_IB2VT`. -/
def ORDERTYPE_IB2VT (s : String) : Option OrderType :=
  if s = "LMT" then some OrderType.LIMIT
  else if s = "MKT" then some OrderType.MARKET
  else if s = "STP" then some OrderType.STOP
  else none

/-- vnpy `Product` members in `PRODUCT_IB2VT`. -/
inductive Product
  | EQUITY | FOREX | SPOT | FUTURES | OPTION | INDEX
deriving DecidableEq, Repr

/-- vnpy `BarInterval` members, including `WEEKLY` which `INTERVAL_VT2IB`
does not map. -/
inductive BarInterval
  | MINUTE | HOUR | DAILY | WEEKLY
deriving DecidableEq, Repr

/-- `INTERVAL_VT2IB`: bar-size strings; an unmapped interval raises
`KeyError` at the subscription site in `query_history`. -/
def INTERVAL_VT2IB : BarInterval → Option String
  | BarInterval.MINUTE => some "1 min"
  | BarInterval.HOUR => some "1 hour"
  | BarInterval.DAILY => some "1 day"
  | BarInterval.WEEKLY => none

/-- `TICKFIELD_IB2VT`: IB tick-type code → vnpy `TickData` field name. -/
def TICKFIELD_IB2VT (t : Nat) : Option String :=
  if t = 0 then some "bid_volume_1"
  else if t = 1 then some "bid_price_1"
  else if t = 2 then some "ask_price_1"
  else if t = 3 then some "ask_volume_1"
  else if t = 4 then some "last_price"
  else if t = 5 then some "last_volume"
  else if t = 6 then some "high_price"
  else if t = 7 then some "low_price"
  else if t = 8 then some "volume"
  else if t = 9 then some "pre_close"
  else if t = 14 then some "open_price"
  else none

/-- vnpy `SubscribeRequest`: symbol and exchange. -/
structure SubscribeRequest where
  symbol : String
  exchange : Exchange
deriving DecidableEq, Repr

/-- vnpy `vt_symbol` property: `f"{symbol}.{exchange.value}"`. -/
def SubscribeRequest.vt_symbol (r : SubscribeRequest) : String :=
  r.symbol ++ "." ++ r.exchange.value

/-- The fields of vnpy `TickData` written by this gateway.  Prices and
sizes are modelled as exact rationals; `datetime` is an abstract clock
reading (`IbApiState.now`). -/
structure TickData where
  symbol : String := ""
  exchange : Exchange := Exchange.SMART
  datetime : Nat := 0
  name : String := ""
  volume : ℚ := 0
  last_price : ℚ := 0
  last_volume : ℚ := 0
  high_price : ℚ := 0
  low_price : ℚ := 0
  open_price : ℚ := 0
  pre_close : ℚ := 0
  bid_price_1 : ℚ := 0
  ask_price_1 : ℚ := 0
  bid_volume_1 : ℚ := 0
  ask_volume_1 : ℚ := 0
  gateway_name : String := ""
deriving DecidableEq, Repr

/-- vnpy `vt_symbol` property of a tick. -/
def TickData.vt_symbol (t : TickData) : String :=
  t.symbol ++ "." ++ t.exchange.value

/-- `setattr(tick, name, v)` for the field names in `TICKFIELD_IB2VT`. -/
def setTickField (t : TickData) (name : String) (v : ℚ) : TickData :=
  if name = "bid_volume_1" then { t with bid_volume_1 := v }
  else if name = "bid_price_1" then { t with bid_price_1 := v }
  else if name = "ask_price_1" then { t with ask_price_1 := v }
  else if name = "ask_volume_1" then { t with ask_volume_1 := v }
  else if name = "last_price" then { t with last_price := v }
  else if name = "last_volume" then { t with last_volume := v }
  else if name = "high_price" then { t with high_price := v }
  else if name = "low_price" then { t with low_price := v }
  else if name = "volume" then { t with volume := v }
  else if name = "pre_close" then { t with pre_close := v }
  else if name = "open_price" then { t with open_price := v }
  else t

/-- `getattr(tick, name)` for the same field names. -/
def getTickField (t : TickData) (name : String) : ℚ :=
  if name = "bid_volume_1" then t.bid_volume_1
  else if name = "bid_price_1" then t.bid_price_1
  else if name = "ask_price_1" then t.ask_price_1
  else if name = "ask_volume_1" then t.ask_volume_1
  else if name = "last_price" then t.last_price
  else if name = "last_volume" then t.last_volume
  else if name = "high_price" then t.high_price
  else if name = "low_price" then t.low_price
  else if name = "volume" then t.volume
  else if name = "pre_close" then t.pre_close
  else if name = "open_price" then t.open_price
  else 0

/-- The fields of vnpy `OrderData` used by this gateway.  Defaults are
vnpy's: status `SUBMITTING`, traded `0`. -/
structure OrderData where
  symbol : String := ""
  exchange : Exchange := Exchange.SMART
  orderid : String := ""
  type : OrderType := OrderType.LIMIT
  direction : Option Direction := none
  price : ℚ := 0
  volume : ℚ := 0
  traded : ℚ := 0
  status : Status := Status.SUBMITTING
  datetime : Option Nat := none
  reference : String := ""
  gateway_name : String := ""
deriving DecidableEq, Repr

/-- vnpy `vt_orderid` property: `f"{gateway_name}.{orderid}"`. -/
def OrderData.vt_orderid (o : OrderData) : String :=
  o.gateway_name ++ "." ++ o.orderid

/-- The fields of vnpy `ContractData` that `query_history` and the tick
handlers read. -/
structure ContractData where
  symbol : String := ""
  exchange : Exchange := Exchange.SMART
  name : String := ""
  product : Product := Product.EQUITY
deriving DecidableEq, Repr

/-- vnpy `OrderRequest`. -/
structure OrderRequest where
  symbol : String
  exchange : Exchange
  direction : Direction
  type : OrderType
  volume : ℚ
  price : ℚ := 0
  reference : String := ""
deriving DecidableEq, Repr

/-- vnpy `OrderRequest.create_order_data` (modelled from the vnpy
dependency: builds an `OrderData` from the request's fields with the
given order id and gateway name; `status` keeps its `SUBMITTING`
default). -/
def OrderRequest.create_order_data (req : OrderRequest) (orderid : String)
    (gateway_name : String) : OrderData :=
  { symbol := req.symbol, exchange := req.exchange, orderid := orderid,
    type := req.type, direction := some req.direction, price := req.price,
    volume := req.volume, reference := req.reference,
    gateway_name := gateway_name }

/-- vnpy `CancelRequest`. -/
structure CancelRequest where
  orderid : String
  symbol : String := ""
  exchange : Exchange := Exchange.SMART
deriving DecidableEq, Repr

/-- vnpy `HistoryRequest`.  `start`/`end_` are day counts (what the
source's `timedelta.days` consumes); `end_` is `None` when absent. -/
structure HistoryRequest where
  symbol : String
  exchange : Exchange
  start : Int
  end_ : Option Int := none
  interval : BarInterval := BarInterval.MINUTE
deriving DecidableEq, Repr

/-- vnpy `vt_symbol` property of a history request. -/
def HistoryRequest.vt_symbol (r : HistoryRequest) : String :=
  r.symbol ++ "." ++ r.exchange.value

/-- Timestamp parsed from a broker bar date string: either a bare
`%Y%m%d` date or a broker-local timestamp with embedded zone name
(time-zone conversion is kept abstract as the split components). -/
inductive PyDateTime
  | fromYmd (ymd : String)
  | fromBroker (ymd : String) (hms : String) (tz : String)
deriving DecidableEq, Repr

/-- vnpy `BarData` as built by `historicalData`. -/
structure BarData where
  symbol : String
  exchange : Exchange
  datetime : PyDateTime
  interval : BarInterval
  volume : ℚ
  open_price : ℚ
  high_price : ℚ
  low_price : ℚ
  close_price : ℚ
  gateway_name : String
deriving DecidableEq, Repr

/-- The fields of `ibapi.common.BarData` the gateway reads. -/
structure IbBar where
  date : String
  openp : ℚ := 0
  high : ℚ := 0
  low : ℚ := 0
  close : ℚ := 0
  volume : ℚ := 0
deriving DecidableEq, Repr

/-- The fields of `ibapi.order.Order` the gateway reads or writes. -/
structure IbOrder where
  orderId : Nat := 0
  clientId : Nat := 0
  action : String := ""
  orderType : String := ""
  totalQuantity : ℚ := 0
  account : String := ""
  outsideRth : Bool := false
  lmtPrice : ℚ := 0
  auxPrice : ℚ := 0
deriving DecidableEq, Repr

/-! ### Python-dict model (insertion-ordered association list) -/

/-- Python `dict` lookup `m.get(k)` / `m[k]`. -/
def dget {κ β : Type} [DecidableEq κ] (m : List (κ × β)) (k : κ) : Option β :=
  match m with
  | [] => none
  | (k', v) :: rest => if k = k' then some v else dget rest k

/-- Python `dict` assignment `m[k] = v` (existing keys keep their
insertion position, as CPython dicts do). -/
def dinsert {κ β : Type} [DecidableEq κ] (m : List (κ × β)) (k : κ) (v : β) :
    List (κ × β) :=
  match m with
  | [] => [(k, v)]
  | (k', v') :: rest => if k = k' then (k, v) :: rest else (k', v') :: dinsert rest k v

/-- Python `list(m.values())` in insertion order. -/
def dvalues {κ β : Type} (m : List (κ × β)) : List β := m.map Prod.snd

/-! ### The `IbApi` session state and the effects it emits

The mutable `IbApi` object is embedded as an explicit state record.
Handlers return the updated state together with the list of outward
calls they made (event-bus emissions and broker requests), in program
order.  Threads are modelled at the granularity the source exposes:
each handler is one atomic callback, and one iteration of the
`subscribeRunner` loop is the step function `subscribeRunnerStep`.
`workerThreads` counts live subscription-worker threads: `nextValidId`
starts one unconditionally; a worker exits only when it observes
`status = false` (`workerLoopExit`) or when an uncaught exception kills
it (`workerCrashed`). -/

/-- Outward-visible actions: event-bus emissions and broker calls. -/
inductive Effect
  | writeLog (msg : String)
  | onTick (t : TickData)
  | onOrder (o : OrderData)
  | reqContractDetails (reqid : Nat) (c : Contract)
  | reqMktData (reqid : Nat) (c : Contract)
  | placeOrder (oid : Nat) (c : Contract) (o : IbOrder)
  | reqIds (n : Nat)
  | cancelOrderCall (oid : Int) (time : Nat)
  | reqHistoricalData (reqid : Nat) (c : Option Contract) (endStr : String)
      (duration : String) (barSize : String) (barType : String)
  | reqCurrentTime
  | conditionNotify
  | startWorkerThread
  | loadContracts
deriving DecidableEq, Repr

/-- The mutable fields of `IbApi`, plus the abstract clock `now` /
`nowDay` and the worker-thread bookkeeping described above. -/
structure IbApiState where
  status : Bool := false
  reqid : Nat := 0
  orderid : Nat := 0
  clientid : Nat := 0
  history_reqid : Nat := 0
  account : String := ""
  ticks : List (Nat × TickData) := []
  orders : List (String × OrderData) := []
  contracts : List (String × ContractData) := []
  tick_exchange : List (Nat × Exchange) := []
  subscribed : List (String × SubscribeRequest) := []
  data_ready : Bool := false
  order_ready : Bool := false
  subscribeRequest_queue : List SubscribeRequest := []
  history_req : Option HistoryRequest := none
  history_buf : List BarData := []
  workerThreads : Nat := 0
  workerCrashed : Bool := false
  gateway_name : String := "IB"
  now : Nat := 0
  nowDay : Int := 0
deriving DecidableEq, Repr

/-- `IbApi.subscribe`: enqueue the request for the worker thread. -/
def IbApi.subscribe (s : IbApiState) (req : SubscribeRequest) : IbApiState :=
  { s with subscribeRequest_queue := s.subscribeRequest_queue ++ [req] }

/-- `IbApi.connectAck`: transport connected; reload the local contract
cache (external collaborator, kept as an effect) and reset both
readiness flags. -/
def IbApi.connectAck (s : IbApiState) : IbApiState × List Effect :=
  let s := { s with status := true }
  let s := { s with data_ready := false, order_ready := false }
  (s, [Effect.writeLog "IB TWS connected", Effect.loadContracts])

/-- `IbApi.connectionClosed`. -/
def IbApi.connectionClosed (s : IbApiState) : IbApiState × List Effect :=
  ({ s with status := false }, [Effect.writeLog "IB TWS disconnected"])

/-- `IbApi.close`. -/
def IbApi.close (s : IbApiState) : IbApiState × List Effect :=
  if !s.status then (s, [])
  else ({ s with status := false }, [])

/-- `IbApi.nextValidId`: handshake completion.  Sets both readiness
flags, re-enqueues every tracked subscription (clearing the dedup set),
and starts a (new) subscription-worker thread — unconditionally. -/
def IbApi.nextValidId (s : IbApiState) (orderId : Nat) : IbApiState × List Effect :=
  let s := { s with orderid := if s.orderid = 0 then orderId else s.orderid }
  let s := { s with order_ready := true }
  let s := { s with data_ready := true }
  let reqs := dvalues s.subscribed
  let s := { s with subscribed := [] }
  let s := reqs.foldl IbApi.subscribe s
  let s := { s with workerThreads := s.workerThreads + 1 }
  (s, [Effect.reqCurrentTime, Effect.startWorkerThread])

/-- `2000 <= code < 3000` (the informational range excluded from the
history-gate notification). -/
def inRange2000 (code : Int) : Bool := 2000 ≤ code && code < 3000

/-- `IbApi.error`: notify the history gate when the error id matches
the in-flight request; then interpret the reconnection codes
1100/1101/1102. -/
def IbApi.error (s : IbApiState) (reqId : Int) (errorCode : Int) :
    IbApiState × List Effect :=
  let notifyEff : List Effect :=
    if reqId = (s.history_reqid : Int) && !inRange2000 errorCode then
      [Effect.conditionNotify]
    else []
  let logEff : List Effect := [Effect.writeLog "error notice"]
  if errorCode = 1100 then
    ({ s with order_ready := false, data_ready := false }, notifyEff ++ logEff)
  else if errorCode = 1101 then
    let reqs := dvalues s.subscribed
    let s := { s with order_ready := true, data_ready := true, subscribed := [] }
    let s := reqs.foldl IbApi.subscribe s
    (s, notifyEff ++ logEff)
  else if errorCode = 1102 then
    ({ s with order_ready := true, data_ready := true }, notifyEff ++ logEff)
  else (s, notifyEff ++ logEff)

/-- One iteration of the `subscribeRunner` loop.  A crashed worker does
nothing; a worker that sees `status = false` leaves the loop
(`workerLoopExit`); while `data_ready` is false the iteration idles
without touching the queue; otherwise it pops one request and processes
it: unsupported exchange → log and drop; duplicate `vt_symbol` →
silently drop; then decode (a `None` result → log and drop; an uncaught
`ValueError`/`KeyError` from decoding kills the thread); finally issue
`reqContractDetails` and `reqMktData` and allocate the tick buffer. -/
def IbApi.subscribeRunnerStep (s : IbApiState) : IbApiState × List Effect :=
  if s.workerCrashed then (s, [])
  else if !s.status then (s, [])
  else if !s.data_ready then (s, [])
  else match s.subscribeRequest_queue with
  | [] => (s, [])
  | req :: rest =>
    let s := { s with subscribeRequest_queue := rest }
    if (EXCHANGE_VT2IB req.exchange).isNone then
      (s, [Effect.writeLog "unsupported exchange"])
    else if (dget s.subscribed req.vt_symbol).isSome then
      (s, [])
    else
      let s := { s with subscribed := dinsert s.subscribed req.vt_symbol req }
      match generate_ib_contract req.symbol req.exchange with
      | Except.ok none => (s, [Effect.writeLog "symbol parse failed"])
      | Except.ok (some ib_contract) =>
        let s := { s with reqid := s.reqid + 1 }
        let e1 := Effect.reqContractDetails s.reqid ib_contract
        let s := { s with reqid := s.reqid + 1 }
        let e2 := Effect.writeLog "pre-subscribe reqid"
        let e3 := Effect.reqMktData s.reqid ib_contract
        let tick : TickData := { symbol := req.symbol, exchange := req.exchange,
                                 datetime := s.now, gateway_name := s.gateway_name }
        let s := { s with ticks := dinsert s.ticks s.reqid tick,
                          tick_exchange := dinsert s.tick_exchange s.reqid req.exchange }
        (s, [e1, e2, e3, Effect.writeLog "post-subscribe reqid"])
      | Except.error _ =>
        ({ s with workerCrashed := true,
                  workerThreads := s.workerThreads - 1 }, [])

/-- A worker iteration's loop test when `status` is false: the thread
exits.  (The loop body runs only `while self.status`.) -/
def IbApi.workerLoopExit (s : IbApiState) : IbApiState :=
  if !s.status then { s with workerThreads := s.workerThreads - 1 } else s

/-- `IbApi.send_order`.  The third component is the Python return value
(`""` on every rejection path), or the exception that escaped
(`ValueError`/`KeyError` from `generate_ib_contract`, `KeyError` from
`DIRECTION_VT2IB`); state mutations made before a raise persist. -/
def IbApi.send_order (s : IbApiState) (req : OrderRequest) :
    IbApiState × List Effect × Except PyError String :=
  if !s.status then (s, [], Except.ok "")
  else if !s.order_ready then
    (s, [Effect.writeLog "not ready to place orders"], Except.ok "")
  else if (EXCHANGE_VT2IB req.exchange).isNone then
    (s, [Effect.writeLog "unsupported exchange"], Except.ok "")
  else if (ORDERTYPE_VT2IB req.type).isNone then
    (s, [Effect.writeLog "unsupported order type"], Except.ok "")
  else
    let s := { s with orderid := s.orderid + 1 }
    match generate_ib_contract req.symbol req.exchange with
    | Except.error e => (s, [], Except.error e)
    | Except.ok none => (s, [], Except.ok "")
    | Except.ok (some ib_contract) =>
      match DIRECTION_VT2IB req.direction with
      | none => (s, [], Except.error PyError.keyError)
      | some act =>
        let ib_order : IbOrder :=
          { orderId := s.orderid, clientId := s.clientid, action := act,
            orderType := (ORDERTYPE_VT2IB req.type).getD "",
            totalQuantity := req.volume, account := s.account, outsideRth := true,
            lmtPrice := if req.type = OrderType.LIMIT then req.price else 0,
            auxPrice := if req.type = OrderType.STOP then req.price else 0 }
        let order := req.create_order_data (pyStrNat s.orderid) s.gateway_name
        let order := { order with datetime := some s.now }
        (s, [Effect.placeOrder s.orderid ib_contract ib_order, Effect.reqIds 1,
             Effect.onOrder order],
         Except.ok order.vt_orderid)

/-- `IbApi.cancel_order`.  `int(req.orderid)` may raise `ValueError`. -/
def IbApi.cancel_order (s : IbApiState) (req : CancelRequest) :
    IbApiState × List Effect × Except PyError Unit :=
  if !s.status then (s, [], Except.ok ())
  else if !s.order_ready then
    (s, [Effect.writeLog "not ready to cancel orders"], Except.ok ())
  else
    match parseIntChars req.orderid.toList with
    | none => (s, [], Except.error PyError.valueError)
    | some oid => (s, [Effect.cancelOrderCall oid s.now], Except.ok ())

/-- `IbApi.orderStatus`: ignored when no record exists; otherwise
update `traded`, map the status string (unmapped strings leave the
status untouched), store, and emit the order event. -/
def IbApi.orderStatus (s : IbApiState) (orderId : Nat) (status : String)
    (filled : ℚ) : IbApiState × List Effect :=
  let orderid := pyStrNat orderId
  match dget s.orders orderid with
  | none => (s, [])
  | some order =>
    let order := { order with traded := filled }
    let order := match STATUS_IB2VT status with
      | some st => { order with status := st }
      | none => order
    ({ s with orders := dinsert s.orders orderid order },
     [Effect.onOrder order, Effect.writeLog "orderStatus"])

/-- `IbApi.openOrder`: build a fresh `OrderData` from the callback's
contract and order (status left at the `SUBMITTING` default) and store
it under the order id, replacing any existing record; the order event
is deliberately not emitted.  Unmapped `orderType`/`action` raise
`KeyError`. -/
def IbApi.openOrder (s : IbApiState) (orderId : Nat) (ib_contract : Contract)
    (ib_order : IbOrder) : Except PyError (IbApiState × List Effect) := do
  let orderid := pyStrNat orderId
  let otype ← match ORDERTYPE_IB2VT ib_order.orderType with
    | some t => Except.ok t
    | none => Except.error PyError.keyError
  let dir ← match DIRECTION_IB2VT ib_order.action with
    | some d => Except.ok d
    | none => Except.error PyError.keyError
  let order : OrderData :=
    { symbol := generate_symbol ib_contract,
      exchange := (EXCHANGE_IB2VT ib_contract.exchange).getD Exchange.SMART,
      type := otype, orderid := orderid, direction := some dir,
      volume := ib_order.totalQuantity, gateway_name := s.gateway_name }
  let order := if order.type = OrderType.LIMIT then { order with price := ib_order.lmtPrice }
    else if order.type = OrderType.STOP then { order with price := ib_order.auxPrice }
    else order
  Except.ok ({ s with orders := dinsert s.orders orderid order }, [])

/-- Python `round(x, 5)` on the exact value (ties to even). -/
def roundHalfEven (q : ℚ) : Int :=
  let f : Int := ⌊q⌋
  let r : ℚ := q - f
  if r < 1/2 then f
  else if 1/2 < r then f + 1
  else if f % 2 = 0 then f else f + 1

/-- `round((bid + ask) / 2, 5)` as used for the synthesized forex/spot
last price. -/
def pyRound5 (q : ℚ) : ℚ := (roundHalfEven (q * 100000) : ℚ) / 100000

/-- The first two statements of the `tickPrice` field update: `setattr`
the mapped price field, then copy the contract display name onto the
tick when the contract cache has the symbol. -/
def tickAfterPrice (s : IbApiState) (tick : TickData) (name : String) (price : ℚ) :
    TickData :=
  let tick := setTickField tick name price
  match dget s.contracts tick.vt_symbol with
  | some contract => { tick with name := contract.name }
  | none => tick

/-- `IbApi.tickPrice`.  The tick object is mutated in place, so the
stored record reflects every `setattr` even on the paths that return
early; the handler never emits a tick (the emission is deliberately
commented out in the source, deferred to the following size update).
The second component is `some err` when `self.tick_exchange[reqId]`
raises `KeyError`. -/
def IbApi.tickPrice (s : IbApiState) (reqId : Nat) (tickType : Nat) (price : ℚ) :
    IbApiState × List Effect × Option PyError :=
  match dget s.ticks reqId with
  | none => (s, [], none)
  | some tick =>
    match TICKFIELD_IB2VT tickType with
    | none => (s, [], none)
    | some name =>
      let tick := tickAfterPrice s tick name price
      let s := { s with ticks := dinsert s.ticks reqId tick }
      match dget s.tick_exchange reqId with
      | none => (s, [], some PyError.keyError)
      | some exchange =>
        if exchange = Exchange.IDEALPRO ∨ strContains tick.symbol "CMDTY" then
          if tick.bid_price_1 = 0 ∨ tick.ask_price_1 = 0 then (s, [], none)
          else
            let tick := { tick with
              last_price := pyRound5 ((tick.bid_price_1 + tick.ask_price_1) / 2) }
            let tick := { tick with datetime := s.now }
            ({ s with ticks := dinsert s.ticks reqId tick }, [], none)
        else
          let tick := { tick with datetime := s.now }
          ({ s with ticks := dinsert s.ticks reqId tick }, [], none)

/-- `IbApi.tickSize`: apply the size field and publish the snapshot. -/
def IbApi.tickSize (s : IbApiState) (reqId : Nat) (tickType : Nat) (size : ℚ) :
    IbApiState × List Effect :=
  match dget s.ticks reqId with
  | none => (s, [])
  | some tick =>
    match TICKFIELD_IB2VT tickType with
    | none => (s, [])
    | some name =>
      let tick := setTickField tick name size
      let tick := { tick with datetime := s.now }
      ({ s with ticks := dinsert s.ticks reqId tick }, [Effect.onTick tick])

/-- `generate_localtime`: split the broker timestamp on spaces; with
fewer than three parts the function returns `None` (the caller then
crashes on `None.replace`); otherwise the zone-named timestamp (the
pytz conversion itself is kept abstract in `PyDateTime.fromBroker`). -/
def generate_localtime (str_datetime : String) : Option PyDateTime :=
  let strTimeList := (pySplit ' ' str_datetime.toList).map String.mk
  if strTimeList.length > 2 then
    some (PyDateTime.fromBroker (strTimeList.getD 0 "") (strTimeList.getD 1 "")
      (strTimeList.getD 2 ""))
  else none

/-- A bare bar date parses under `strptime("%Y%m%d")`: eight digits. -/
def isYmd (s : String) : Bool := s.length = 8 && s.toList.all Char.isDigit

/-- The bar-timestamp step of `historicalData`: a long date goes
through `generate_localtime` (a `None` result then crashes on
`None.replace`, `AttributeError`); a short one through
`strptime("%Y%m%d")` (`ValueError` when unparseable). -/
def barDateExc (d : String) : Except PyError PyDateTime :=
  if d.length > 8 then
    match generate_localtime d with
    | some dt => Except.ok dt
    | none => Except.error PyError.attributeError
  else
    if isYmd d then Except.ok (PyDateTime.fromYmd d)
    else Except.error PyError.valueError

/-- `IbApi.historicalData`: parse the bar timestamp, build the
`BarData` from the in-flight request's fields, clamp negative volume to
zero and append to the buffer.  Raises when the date fails to parse or
when no request is in flight (`self.history_req.symbol` on `None`). -/
def IbApi.historicalData (s : IbApiState) (ib_bar : IbBar) :
    Except PyError IbApiState := do
  let dt ← barDateExc ib_bar.date
  match s.history_req with
  | none => Except.error PyError.attributeError
  | some req =>
    let bar : BarData :=
      { symbol := req.symbol, exchange := req.exchange, datetime := dt,
        interval := req.interval, volume := ib_bar.volume,
        open_price := ib_bar.openp, high_price := ib_bar.high,
        low_price := ib_bar.low, close_price := ib_bar.close,
        gateway_name := s.gateway_name }
    let bar := if bar.volume < 0 then { bar with volume := 0 } else bar
    Except.ok { s with history_buf := s.history_buf ++ [bar] }

/-- `IbApi.historicalDataEnd`: signal the wait/notify gate. -/
def IbApi.historicalDataEnd (s : IbApiState) : IbApiState × List Effect :=
  (s, [Effect.conditionNotify])

/-- The part of `IbApi.query_history` that runs before the blocking
wait: look up the contract (`self.contracts[req.vt_symbol]` raises
`KeyError` when absent — the `if not contract` guard below it is
unreachable), store the request, allocate a request id, build the
duration/bar-size/bar-type parameters (an unmapped interval raises
`KeyError`), record `history_reqid` and issue the broker request.
State mutations made before a raise persist. -/
def IbApi.query_history_start (s : IbApiState) (req : HistoryRequest) :
    IbApiState × List Effect × Option PyError :=
  match dget s.contracts req.vt_symbol with
  | none => (s, [], some PyError.keyError)
  | some contract =>
    let s := { s with history_req := some req }
    let s := { s with reqid := s.reqid + 1 }
    match generate_ib_contract req.symbol req.exchange with
    | Except.error e => (s, [], some e)
    | Except.ok ib_contract =>
      let endD : Int := match req.end_ with | some e => e | none => s.nowDay
      let endStr : String := match req.end_ with
        | some e => "end " ++ pyStrInt e
        | none => ""
      let days : Int := min (endD - req.start) 180
      let duration : String := pyStrInt days ++ " D"
      match INTERVAL_VT2IB req.interval with
      | none => (s, [], some PyError.keyError)
      | some bar_size =>
        let bar_type : String :=
          if contract.product = Product.SPOT ∨ contract.product = Product.FOREX then
            "MIDPOINT"
          else "TRADES"
        let s := { s with history_reqid := s.reqid }
        (s, [Effect.reqHistoricalData s.reqid ib_contract endStr duration
              bar_size bar_type], none)

/-- The part of `IbApi.query_history` that runs after the wait returns:
swap out the buffer and clear the in-flight request descriptor.
(`history_reqid` is left as is.) -/
def IbApi.query_history_finish (s : IbApiState) : IbApiState × List BarData :=
  let history := s.history_buf
  ({ s with history_buf := [], history_req := none }, history)

/-- Deliver a list of broker bars to `historicalData` in order. -/
def deliverBars (s : IbApiState) (ibBars : List IbBar) : Except PyError IbApiState :=
  ibBars.foldlM IbApi.historicalData s

/-- A complete blocking `query_history` call whose wait is satisfied by
`ibBars` bar callbacks followed by one `historicalDataEnd`: issue the
request, deliver the bars, signal the gate, wake and collect.  `none`
when any step raised. -/
def IbApi.runHistQuery (s : IbApiState) (req : HistoryRequest) (ibBars : List IbBar) :
    Option (IbApiState × List BarData) :=
  let r := IbApi.query_history_start s req
  if r.2.2.isSome then none
  else match deliverBars r.1 ibBars with
    | Except.error _ => none
    | Except.ok s2 => some (IbApi.query_history_finish (IbApi.historicalDataEnd s2).1)

/-- Iterate `subscribeRunnerStep` `n` times, collecting effects. -/
def runSteps : Nat → IbApiState → IbApiState × List Effect
  | 0, s => (s, [])
  | n + 1, s =>
    let (s1, e1) := IbApi.subscribeRunnerStep s
    let (s2, e2) := runSteps n s1
    (s2, e1 ++ e2)

/-- The contracts requested from the broker (`reqMktData`) within an
effect list, in order. -/
def mktContracts (effs : List Effect) : List Contract :=
  effs.filterMap fun e => match e with
    | Effect.reqMktData _ c => some c
    | _ => none

/-- The decoded contract of a subscription request (meaningful under
the hypothesis that decoding succeeds). -/
def contractOf (r : SubscribeRequest) : Contract :=
  match generate_ib_contract r.symbol r.exchange with
  | Except.ok (some c) => c
  | _ => {}

/-- The error-1101 reconnection scenario of the spec: the 1101 error
callback, then handshake completion, then two worker iterations. -/
def reconnectScenario (s : IbApiState) (oid : Nat) : IbApiState × List Effect :=
  let (s1, e1) := IbApi.error s 0 1101
  let (s2, e2) := IbApi.nextValidId s1 oid
  let (s3, e3) := runSteps 2 s2
  (s3, e1 ++ e2 ++ e3)

/-- A price-update callback followed immediately by a size-update
callback for the same instrument, with the combined emissions. -/
def priceThenSize (s : IbApiState) (reqId pt st : Nat) (pv sv : ℚ) :
    IbApiState × List Effect × Option PyError :=
  let (s1, e1, err) := IbApi.tickPrice s reqId pt pv
  match err with
  | some e => (s1, e1, some e)
  | none =>
    let (s2, e2) := IbApi.tickSize s1 reqId st sv
    (s2, e1 ++ e2, none)

/-- Concrete instruments for the witnesses. -/
def wReqEur : SubscribeRequest := { symbol := "EUR-USD-CASH", exchange := Exchange.IDEALPRO }

/-- A second concrete instrument. -/
def wReqSpy : SubscribeRequest := { symbol := "SPY-USD-STK", exchange := Exchange.SMART }

/-- An idle (data not ready) state holding one queued request. -/
def wStateIdle : IbApiState :=
  { status := true, data_ready := false, subscribeRequest_queue := [wReqEur] }

/-- A ready state holding two queued requests. -/
def wStateReady : IbApiState :=
  { status := true, data_ready := true, order_ready := true,
    subscribeRequest_queue := [wReqEur, wReqSpy] }

/-- A ready state whose queued request is already subscribed. -/
def wStateDup : IbApiState :=
  { status := true, data_ready := true,
    subscribed := [(wReqEur.vt_symbol, wReqEur)],
    subscribeRequest_queue := [wReqEur] }

/-- A connected state tracking exactly two subscriptions. -/
def wStateSub2 : IbApiState :=
  { status := true,
    subscribed := [(wReqEur.vt_symbol, wReqEur), (wReqSpy.vt_symbol, wReqSpy)] }

/-- A connected session state with no worker running yet. -/
def c10state : IbApiState := { status := true }

/-- A connected, order-ready state. -/
def c5state : IbApiState := { status := true, order_ready := true }

/-- An order request whose symbol cannot be parsed into a contract
(one field; indexing `fields[-2]` raises `IndexError`, caught to
`None`). -/
def c5req : OrderRequest :=
  { symbol := "X", exchange := Exchange.SMART, direction := Direction.LONG,
    type := OrderType.LIMIT, volume := 1, price := 5 }

/-- A well-formed limit-order request. -/
def c5reqGood : OrderRequest :=
  { symbol := "EUR-USD-CASH", exchange := Exchange.IDEALPRO,
    direction := Direction.LONG, type := OrderType.LIMIT, volume := 1, price := 5 }

/-- A tracked order record for the C6 witness. -/
def c6order : OrderData :=
  { symbol := "SPY-USD-STK", exchange := Exchange.SMART, orderid := "9",
    type := OrderType.LIMIT, direction := some Direction.LONG, volume := 10,
    gateway_name := "IB" }

/-- A session tracking exactly the order above. -/
def c6state : IbApiState := { orders := [("9", c6order)] }

/-- A tracked order record with an established status. -/
def c7prev : OrderData :=
  { symbol := "SPY-USD-STK", exchange := Exchange.SMART, orderid := "1",
    type := OrderType.LIMIT, direction := some Direction.LONG, volume := 10,
    traded := 3, status := Status.NOTTRADED, gateway_name := "IB" }

/-- A session whose order "1" already carries an established status. -/
def c7state : IbApiState := { orders := [("1", c7prev)] }

/-- The broker contract echoed by the open-order callback. -/
def c7contract : Contract :=
  { symbol := "SPY", secType := "STK", currency := "USD", exchange := "SMART" }

/-- The broker order echoed by the open-order callback. -/
def c7iborder : IbOrder :=
  { orderId := 1, action := "BUY", orderType := "LMT", totalQuantity := 10,
    lmtPrice := 99 }

/-- The bar timestamp `historicalData` produces for a broker date
string, when parsing succeeds. -/
def parseBarDate (d : String) : Option PyDateTime :=
  if d.length > 8 then generate_localtime d
  else if isYmd d then some (PyDateTime.fromYmd d) else none

/-- The `BarData` that `historicalData` appends for a broker bar, given
the in-flight request and gateway name. -/
def mkBarOf (req : HistoryRequest) (gw : String) (b : IbBar) : BarData :=
  { symbol := req.symbol, exchange := req.exchange,
    datetime := (parseBarDate b.date).getD (PyDateTime.fromYmd ""),
    interval := req.interval,
    volume := if b.volume < 0 then 0 else b.volume,
    open_price := b.openp, high_price := b.high, low_price := b.low,
    close_price := b.close, gateway_name := gw }

/-- The session state a completed historical query leaves behind:
buffer swapped out, request descriptor cleared, and the numeric
request id still holding the finished query's id. -/
def histFinalState (s : IbApiState) : IbApiState :=
  { s with reqid := s.reqid + 1, history_reqid := s.reqid + 1,
           history_req := none, history_buf := [] }

/-- The cached contract the C2 scenario queries. -/
def c2contract : ContractData :=
  { symbol := "EUR-USD-CASH", exchange := Exchange.IDEALPRO, name := "Euro",
    product := Product.FOREX }

/-- A connected session whose contract table holds the instrument. -/
def c2state : IbApiState :=
  { status := true, data_ready := true, order_ready := true,
    contracts := [("EUR-USD-CASH.IDEALPRO", c2contract)] }

/-- The historical request of the C2 scenario. -/
def c2req : HistoryRequest :=
  { symbol := "EUR-USD-CASH", exchange := Exchange.IDEALPRO, start := 0,
    end_ := some 10, interval := BarInterval.MINUTE }

/-- A broker bar with the placeholder negative volume. -/
def c2bar : IbBar :=
  { date := "20230629 10:30:00 Hongkong", openp := 1, high := 2, low := 1,
    close := 2, volume := -1 }

/-- The datetime stamp `tick.datetime = datetime.now(...)` as a record
update. -/
def stampTime (t : TickData) (now : Nat) : TickData :=
  { t with datetime := now }

/-- On the plain-equity path (exchange not IDEALPRO, symbol not a
commodity) a tracked price update stores the updated tick twice (the
in-place mutation then the datetime stamp) and returns no effects and
no exception. -/
def tickPriceResult (s : IbApiState) (reqId : Nat) (t0 : TickData) (pn : String)
    (pv : ℚ) : IbApiState :=
  let t1 := tickAfterPrice s t0 pn pv
  { s with ticks := dinsert (dinsert s.ticks reqId t1) reqId (stampTime t1 s.now) }

/-- A tracked tick with a plain symbol on a non-forex venue. -/
def c8tick : TickData :=
  { symbol := "EUR", exchange := Exchange.SMART }

/-- Session with one subscribed instrument, request id 1. -/
def c8state : IbApiState :=
  { status := true, ticks := [(1, c8tick)], tick_exchange := [(1, Exchange.SMART)] }

/-- A connected, ready session whose local contract cache is empty. -/
def c9state : IbApiState :=
  { status := true, data_ready := true, order_ready := true }

/-- A history request for an instrument that was never subscribed (so
its `vt_symbol` is not in `self.contracts`). -/
def c9req : HistoryRequest :=
  { symbol := "SPY-USD-STK", exchange := Exchange.SMART, start := 0 }

theorem digitToChar_isDigit (d : Nat) : (digitToChar d).isDigit = true := by
  unfold digitToChar
  split <;> decide

theorem charToDigit_digitToChar {d : Nat} (h : d < 10) :
    charToDigit (digitToChar d) = d := by
  interval_cases d <;> decide

theorem charsVal_append (l : List Char) (c : Char) :
    charsVal (l ++ [c]) = charsVal l * 10 + charToDigit c := by
  simp [charsVal, List.foldl_append]

theorem natDigitsAux_zero (fuel : Nat) : natDigitsAux fuel 0 = [] := by
  cases fuel <;> simp [natDigitsAux]

theorem charsVal_natDigitsAux :
    ∀ (fuel n : Nat), 0 < n → n ≤ fuel → charsVal (natDigitsAux fuel n) = n := by
  intro fuel
  induction fuel with
  | zero => intro n h1 h2; omega
  | succ f ih =>
    intro n h1 h2
    rw [natDigitsAux, if_neg (by omega)]
    rw [charsVal_append, charToDigit_digitToChar (Nat.mod_lt n (by norm_num))]
    by_cases hns : n < 10
    · have : n / 10 = 0 := Nat.div_eq_of_lt hns
      rw [this, natDigitsAux_zero]
      simp [charsVal]
      omega
    · have h10 : 0 < n / 10 := Nat.div_pos (by omega) (by norm_num)
      have hle : n / 10 ≤ f := by
        have := Nat.div_lt_self h1 (show 1 < 10 by norm_num)
        omega
      rw [ih (n / 10) h10 hle]
      omega

theorem charsVal_natToChars (n : Nat) : charsVal (natToChars n) = n := by
  unfold natToChars
  by_cases h : n = 0
  · subst h; decide
  · rw [if_neg h]
    exact charsVal_natDigitsAux n n (by omega) le_rfl

theorem natDigitsAux_all_digit (fuel n : Nat) :
    ∀ c ∈ natDigitsAux fuel n, c.isDigit = true := by
  induction fuel generalizing n with
  | zero => intro c hc; simp [natDigitsAux] at hc
  | succ f ih =>
    intro c hc
    rw [natDigitsAux] at hc
    by_cases h : n = 0
    · simp [h] at hc
    · rw [if_neg h] at hc
      rcases List.mem_append.mp hc with h1 | h1
      · exact ih _ c h1
      · simp at h1
        rw [h1]
        exact digitToChar_isDigit _

theorem natToChars_all_digit (n : Nat) : ∀ c ∈ natToChars n, c.isDigit = true := by
  unfold natToChars
  by_cases h : n = 0
  · rw [if_pos h]
    intro c hc
    simp at hc
    rw [hc]
    decide
  · rw [if_neg h]; exact natDigitsAux_all_digit n n

theorem natToChars_ne_nil (n : Nat) : natToChars n ≠ [] := by
  unfold natToChars
  by_cases h : n = 0
  · simp [h]
  · rw [if_neg h]
    obtain ⟨m, rfl⟩ : ∃ m, n = m + 1 := ⟨n - 1, by omega⟩
    rw [natDigitsAux, if_neg h]
    simp

theorem parseNatChars_natToChars (n : Nat) : parseNatChars (natToChars n) = some n := by
  unfold parseNatChars
  rw [if_neg (by simp [List.isEmpty_iff, natToChars_ne_nil])]
  rw [if_pos (by rw [List.all_eq_true]; exact natToChars_all_digit n)]
  rw [charsVal_natToChars]

theorem toList_mk (l : List Char) : (String.mk l).toList = l := rfl

theorem mk_toList (s : String) : String.mk s.toList = s := rfl

theorem digit_ne_dash {c : Char} (h : c.isDigit = true) : c ≠ '-' := by
  intro he
  rw [he] at h
  simp [Char.isDigit] at h

theorem digit_ne_dot {c : Char} (h : c.isDigit = true) : c ≠ '.' := by
  intro he
  rw [he] at h
  simp [Char.isDigit] at h

theorem parseIntChars_pyStrInt (m : Int) (hm : 0 ≤ m) :
    parseIntChars (pyStrInt m).toList = some m := by
  unfold pyStrInt
  rw [if_neg (by omega)]
  rw [toList_mk]
  simp only [List.nil_append]
  obtain ⟨c, cs, hcc⟩ : ∃ c cs, natToChars m.natAbs = c :: cs := by
    cases h : natToChars m.natAbs with
    | nil => exact absurd h (natToChars_ne_nil _)
    | cons c cs => exact ⟨c, cs, rfl⟩
  rw [hcc]
  have hdig : c.isDigit = true := by
    apply natToChars_all_digit m.natAbs
    rw [hcc]; simp
  simp only [parseIntChars]
  rw [if_neg (digit_ne_dash hdig)]
  rw [← hcc, parseNatChars_natToChars]
  simp
  omega

/-- `takeWhile` over a block that wholly satisfies `p` passes through. -/
theorem takeWhile_all_append {p : Char → Bool} {l : List Char} (r : List Char)
    (h : ∀ c ∈ l, p c = true) : (l ++ r).takeWhile p = l ++ r.takeWhile p := by
  induction l with
  | nil => simp
  | cons a t ih =>
    simp only [List.cons_append, List.takeWhile_cons]
    rw [if_pos (h a (by simp))]
    rw [ih (fun c hc => h c (by simp [hc]))]

theorem dropWhile_all_append {p : Char → Bool} {l : List Char} (r : List Char)
    (h : ∀ c ∈ l, p c = true) : (l ++ r).dropWhile p = r.dropWhile p := by
  induction l with
  | nil => simp
  | cons a t ih =>
    simp only [List.cons_append, List.dropWhile_cons]
    rw [if_pos (h a (by simp))]
    exact ih (fun c hc => h c (by simp [hc]))

theorem stripTrailZeros_eq_self {l : List Nat} (h : l.getLast? ≠ some 0) :
    stripTrailZeros l = l := by
  unfold stripTrailZeros
  cases hr : l.reverse with
  | nil =>
    have : l = [] := by simpa using congrArg List.reverse hr
    simp [this]
  | cons a t =>
    have ha : l.getLast? = some a := by
      rw [← List.head?_reverse, hr]; rfl
    have : a ≠ 0 := fun he => h (by rw [ha, he])
    rw [List.dropWhile_cons]
    rw [if_neg (by simpa using this)]
    rw [← hr, List.reverse_reverse]

theorem parseFloatChars_reprPyFloat (v : PyFloatVal)
    (hfrac : ∀ d ∈ v.frac, d < 10) (hlast : v.frac.getLast? ≠ some 0) :
    parseFloatChars (reprPyFloat v).toList = some v := by
  have hunsigned : parseUnsigned v.neg
      (natToChars v.ip ++ '.' :: (if v.frac.isEmpty then [0] else v.frac).map digitToChar)
      = some v := by
    unfold parseUnsigned
    rw [takeWhile_all_append _ (natToChars_all_digit v.ip)]
    rw [dropWhile_all_append _ (natToChars_all_digit v.ip)]
    rw [List.takeWhile_cons, if_neg (by decide)]
    rw [List.dropWhile_cons, if_neg (by decide)]
    simp only [List.append_nil, if_true]
    have hall : ((if v.frac.isEmpty then [0] else v.frac).map digitToChar).all Char.isDigit = true := by
      rw [List.all_eq_true]
      intro c hc
      rw [List.mem_map] at hc
      obtain ⟨d, _, hd⟩ := hc
      rw [← hd]
      exact digitToChar_isDigit d
    rw [if_pos hall]
    rw [if_neg (by simp [List.isEmpty_iff, natToChars_ne_nil])]
    have hval : charsVal (natToChars v.ip) = v.ip := charsVal_natToChars v.ip
    have hfr : stripTrailZeros (((if v.frac.isEmpty then [0] else v.frac).map digitToChar).map charToDigit) = v.frac := by
      by_cases he : v.frac.isEmpty
      · rw [if_pos he]
        have : v.frac = [] := by simpa [List.isEmpty_iff] using he
        rw [this]
        decide
      · rw [if_neg he]
        rw [List.map_map]
        have : v.frac.map (charToDigit ∘ digitToChar) = v.frac.map id := by
          apply List.map_congr_left
          intro d hd
          exact charToDigit_digitToChar (hfrac d hd)
        rw [this, List.map_id]
        exact stripTrailZeros_eq_self hlast
    rw [hval, hfr]
  have hlist : (reprPyFloat v).toList
      = (if v.neg then ['-'] else []) ++ natToChars v.ip
        ++ '.' :: (if v.frac.isEmpty then [0] else v.frac).map digitToChar := by
    unfold reprPyFloat
    rw [toList_mk, List.append_assoc]
  by_cases hn : v.neg
  · rw [hlist, if_pos hn]
    simp only [List.singleton_append]
    rw [hn] at hunsigned
    exact hunsigned
  · rw [hlist, if_neg hn]
    simp only [List.nil_append]
    obtain ⟨c, cs, hcc⟩ : ∃ c cs,
        natToChars v.ip ++ '.' :: (if v.frac.isEmpty then [0] else v.frac).map digitToChar = c :: cs := by
      cases h : natToChars v.ip with
      | nil => exact absurd h (natToChars_ne_nil _)
      | cons a t =>
        refine ⟨a, t ++ '.' :: (if v.frac.isEmpty then [0] else v.frac).map digitToChar, ?_⟩
        simp
    rw [hcc]
    have hdig : c.isDigit = true := by
      have hc : c ∈ natToChars v.ip := by
        cases h : natToChars v.ip with
        | nil => exact absurd h (natToChars_ne_nil _)
        | cons a t =>
          rw [h] at hcc
          simp only [List.cons_append, List.cons.injEq] at hcc
          rw [hcc.1]
          simp
      exact natToChars_all_digit v.ip c hc
    have hstep : parseFloatChars (c :: cs)
        = if c = '-' then parseUnsigned true cs else parseUnsigned false (c :: cs) := rfl
    rw [hstep, if_neg (digit_ne_dash hdig)]
    rw [← hcc]
    have hn' : v.neg = false := by simpa using hn
    rw [hn'] at hunsigned
    exact hunsigned

theorem exc_bind_ok {ε α β : Type} (x : α) (f : α → Except ε β) :
    (Except.ok x >>= f : Except ε β) = f x := rfl

theorem exc_bind_err {ε α β : Type} (e : ε) (f : α → Except ε β) :
    (Except.error e >>= f : Except ε β) = Except.error e := rfl

theorem exc_pure {ε α : Type} (x : α) : (pure x : Except ε α) = Except.ok x := rfl

theorem pySplit_cons (sep c : Char) (t : List Char) :
    pySplit sep (c :: t) = match pySplit sep t with
      | [] => [[]]
      | f :: rest => if c = sep then [] :: f :: rest else (c :: f) :: rest := rfl

theorem pySplit_cons_eq (sep c : Char) (t f : List Char) (rest : List (List Char))
    (h : pySplit sep t = f :: rest) :
    pySplit sep (c :: t) = if c = sep then [] :: f :: rest else (c :: f) :: rest := by
  rw [pySplit_cons, h]

theorem pySplit_ne_nil (sep : Char) (cs : List Char) : pySplit sep cs ≠ [] := by
  induction cs with
  | nil => simp [pySplit]
  | cons c t ih =>
    cases h : pySplit sep t with
    | nil => exact absurd h ih
    | cons f rest =>
      rw [pySplit_cons_eq sep c t f rest h]
      by_cases hc : c = sep <;> simp [hc]

theorem pySplit_no_sep (sep : Char) (cs : List Char) (h : sep ∉ cs) :
    pySplit sep cs = [cs] := by
  induction cs with
  | nil => rfl
  | cons c t ih =>
    have ht : pySplit sep t = [t] := ih (fun hm => h (List.mem_cons_of_mem _ hm))
    rw [pySplit_cons_eq sep c t t [] ht]
    rw [if_neg (fun he : c = sep => h (by rw [← he]; exact List.mem_cons_self _ _))]

theorem pySplit_sep_append (sep : Char) (cs t : List Char) (h : sep ∉ cs) :
    pySplit sep (cs ++ sep :: t) = cs :: pySplit sep t := by
  induction cs with
  | nil =>
    rw [List.nil_append]
    cases hf : pySplit sep t with
    | nil => exact absurd hf (pySplit_ne_nil sep t)
    | cons f rest =>
      rw [pySplit_cons_eq sep sep t f rest hf, if_pos rfl]
  | cons c cs ih =>
    have htail := ih (fun hm => h (List.mem_cons_of_mem _ hm))
    rw [List.cons_append]
    rw [pySplit_cons_eq sep c (cs ++ sep :: t) cs (pySplit sep t) htail]
    rw [if_neg (fun he : c = sep => h (by rw [← he]; exact List.mem_cons_self _ _))]

theorem pySplit_pyJoin (sep : Char) :
    ∀ (ls : List (List Char)), ls ≠ [] → (∀ f ∈ ls, sep ∉ f) →
      pySplit sep (pyJoin sep ls) = ls
  | [], h, _ => absurd rfl h
  | [f], _, h2 => by
    rw [pyJoin]
    exact pySplit_no_sep sep f (h2 f (by simp))
  | f :: g :: rest, _, h2 => by
    rw [pyJoin]
    rw [pySplit_sep_append sep f _ (h2 f (by simp))]
    rw [pySplit_pyJoin sep (g :: rest) (by simp) (fun x hx => h2 x (by simp [hx]))]

theorem splitFields_joinSym (l : List String) (h1 : l ≠ [])
    (h2 : ∀ f ∈ l, '-' ∉ f.toList) : splitFields (joinSym l) = l := by
  unfold splitFields joinSym
  rw [toList_mk]
  rw [pySplit_pyJoin '-' (l.map String.toList) (by simpa using h1)
      (fun f hf => by
        obtain ⟨s, hs, hr⟩ := List.mem_map.mp hf
        rw [← hr]
        exact h2 s hs)]
  rw [List.map_map]
  calc (l.map fun s => String.mk s.toList) = l.map id :=
        List.map_congr_left (fun s _ => mk_toList s)
    _ = l := List.map_id l

theorem decode_body_stock (s : String) (sym cur st : String) (e : Exchange) (es : String)
    (hE : EXCHANGE_VT2IB e = some es)
    (hsplit : splitFields s = [sym, cur, st])
    (hst : st ∉ (["FUT", "OPT", "FOP"] : List String)) :
    generate_ib_contract s e = Except.ok (some
      { symbol := sym, secType := st, currency := cur, exchange := es }) := by
  have hF : st ≠ "FUT" := fun he => hst (by rw [he]; simp)
  have hO : st ≠ "OPT" := fun he => hst (by rw [he]; simp)
  have hP : st ≠ "FOP" := fun he => hst (by rw [he]; simp)
  unfold generate_ib_contract generate_ib_contract_body
  rw [hsplit, hE]
  simp [exc_bind_ok, exc_bind_err, exc_pure, pyGet, hF, hO, hP]

theorem decode_body_fut (s : String) (sym lt cur : String) (e : Exchange) (es : String)
    (hE : EXCHANGE_VT2IB e = some es)
    (hsplit : splitFields s = [sym, lt, cur, "FUT"]) :
    generate_ib_contract s e = Except.ok (some
      { symbol := sym, secType := "FUT", currency := cur, exchange := es,
        lastTradeDateOrContractMonth := lt }) := by
  unfold generate_ib_contract generate_ib_contract_body
  rw [hsplit, hE]
  simp [exc_bind_ok, exc_bind_err, exc_pure, pyGet]

theorem decode_body_opt (s : String) (sym lt r ss ms cur st : String) (e : Exchange) (es : String)
    (hE : EXCHANGE_VT2IB e = some es)
    (hsplit : splitFields s = [sym, lt, r, ss, ms, cur, st])
    (hst : st = "OPT" ∨ st = "FOP")
    (v : PyFloatVal) (hv : parseFloatChars ss.toList = some v)
    (m : Int) (hm : parseIntChars ms.toList = some m) :
    generate_ib_contract s e = Except.ok (some
      { symbol := sym, secType := st, currency := cur, exchange := es,
        lastTradeDateOrContractMonth := lt, right := r, strike := v,
        multiplier := some m }) := by
  have hF : st ≠ "FUT" := by rcases hst with h | h <;> rw [h] <;> decide
  have hv' : parseFloatChars ss.data = some v := hv
  have hm' : parseIntChars ms.data = some m := hm
  unfold generate_ib_contract generate_ib_contract_body
  rw [hsplit, hE]
  simp [exc_bind_ok, exc_bind_err, exc_pure, pyGet, pyFloatF, pyIntF, hF, hst, hv', hm']

theorem encode_stock (c : Contract) (h : c.secType ∉ (["FUT", "OPT", "FOP"] : List String)) :
    generate_symbol c = joinSym [c.symbol, c.currency, c.secType] := by
  have h2 : c.secType ∉ (["OPT", "FOP"] : List String) :=
    fun hm => h (List.mem_cons_of_mem _ hm)
  unfold generate_symbol joinSym
  simp [h, h2]

theorem encode_fut (c : Contract) (h : c.secType = "FUT") :
    generate_symbol c
      = joinSym [c.symbol, c.lastTradeDateOrContractMonth, c.currency, c.secType] := by
  unfold generate_symbol joinSym
  simp [h]

theorem encode_opt (c : Contract) (h : c.secType = "OPT" ∨ c.secType = "FOP") :
    generate_symbol c
      = joinSym [c.symbol, c.lastTradeDateOrContractMonth, c.right,
          reprPyFloat c.strike, pyStrMult c.multiplier, c.currency, c.secType] := by
  unfold generate_symbol joinSym
  rcases h with h | h <;> simp [h]

theorem reprPyFloat_no_dash (v : PyFloatVal) (h : v.neg = false) :
    '-' ∉ (reprPyFloat v).toList := by
  unfold reprPyFloat
  rw [toList_mk, h]
  simp only [Bool.false_eq_true, if_false, List.nil_append]
  intro hm
  rcases List.mem_append.mp hm with hm1 | hm1
  · exact digit_ne_dash (natToChars_all_digit v.ip _ hm1) rfl
  · rcases List.mem_cons.mp hm1 with hm2 | hm2
    · exact absurd hm2 (by decide)
    · obtain ⟨d, _, hd⟩ := List.mem_map.mp hm2
      exact digit_ne_dash (by rw [← hd]; exact digitToChar_isDigit d) rfl

theorem pyStrInt_no_dash (m : Int) (h : 0 ≤ m) : '-' ∉ (pyStrInt m).toList := by
  unfold pyStrInt
  rw [toList_mk, if_neg (by omega)]
  rw [List.nil_append]
  intro hm
  exact digit_ne_dash (natToChars_all_digit m.natAbs _ hm) rfl

theorem roundtrip_stock (c : Contract) (e : Exchange) (es : String)
    (hE : EXCHANGE_VT2IB e = some es) (hex : c.exchange = es)
    (hs : '-' ∉ c.symbol.toList) (hc : '-' ∉ c.currency.toList)
    (ht : '-' ∉ c.secType.toList)
    (hst : c.secType ∉ (["FUT", "OPT", "FOP"] : List String))
    (hlt : c.lastTradeDateOrContractMonth = "") (hr : c.right = "")
    (hstrike : c.strike = {}) (hmult : c.multiplier = none) :
    generate_ib_contract (generate_symbol c) e = Except.ok (some c) := by
  have hsplit : splitFields (joinSym [c.symbol, c.currency, c.secType])
      = [c.symbol, c.currency, c.secType] := by
    apply splitFields_joinSym _ (by simp)
    intro f hf
    simp at hf
    rcases hf with rfl | rfl | rfl <;> assumption
  rw [encode_stock c hst,
      decode_body_stock _ c.symbol c.currency c.secType e es hE hsplit hst]
  obtain ⟨csym, cst, ccur, cex, clt, cr, cstk, cm⟩ := c
  simp only at hex hlt hr hstrike hmult
  rw [hex, hlt, hr, hstrike, hmult]

theorem roundtrip_fut (c : Contract) (e : Exchange) (es : String)
    (hE : EXCHANGE_VT2IB e = some es) (hex : c.exchange = es)
    (hs : '-' ∉ c.symbol.toList) (hc : '-' ∉ c.currency.toList)
    (hlt : '-' ∉ c.lastTradeDateOrContractMonth.toList)
    (hst : c.secType = "FUT") (hr : c.right = "")
    (hstrike : c.strike = {}) (hmult : c.multiplier = none) :
    generate_ib_contract (generate_symbol c) e = Except.ok (some c) := by
  have hsplit : splitFields (joinSym [c.symbol, c.lastTradeDateOrContractMonth, c.currency, "FUT"])
      = [c.symbol, c.lastTradeDateOrContractMonth, c.currency, "FUT"] := by
    apply splitFields_joinSym _ (by simp)
    intro f hf
    simp at hf
    rcases hf with rfl | rfl | rfl | rfl
    · assumption
    · assumption
    · assumption
    · decide
  rw [encode_fut c hst, hst,
      decode_body_fut _ c.symbol c.lastTradeDateOrContractMonth c.currency e es hE hsplit]
  obtain ⟨csym, cst, ccur, cex, clt, cr, cstk, cm⟩ := c
  simp only at hex hst hr hstrike hmult
  rw [hex, hst, hr, hstrike, hmult]

theorem roundtrip_opt (c : Contract) (e : Exchange) (es : String) (m : Int)
    (hE : EXCHANGE_VT2IB e = some es) (hex : c.exchange = es)
    (hs : '-' ∉ c.symbol.toList) (hc : '-' ∉ c.currency.toList)
    (hlt : '-' ∉ c.lastTradeDateOrContractMonth.toList)
    (hrt : '-' ∉ c.right.toList)
    (hst : c.secType = "OPT" ∨ c.secType = "FOP")
    (hneg : c.strike.neg = false)
    (hfr : ∀ d ∈ c.strike.frac, d < 10)
    (hlast : c.strike.frac.getLast? ≠ some 0)
    (hmult : c.multiplier = some m) (hm : 0 ≤ m) :
    generate_ib_contract (generate_symbol c) e = Except.ok (some c) := by
  have hstd : '-' ∉ c.secType.toList := by
    rcases hst with h | h <;> rw [h] <;> decide
  have hsplit : splitFields (joinSym [c.symbol, c.lastTradeDateOrContractMonth, c.right,
      reprPyFloat c.strike, pyStrMult c.multiplier, c.currency, c.secType])
      = [c.symbol, c.lastTradeDateOrContractMonth, c.right,
         reprPyFloat c.strike, pyStrMult c.multiplier, c.currency, c.secType] := by
    apply splitFields_joinSym _ (by simp)
    intro f hf
    simp at hf
    rcases hf with rfl | rfl | rfl | rfl | rfl | rfl | rfl
    · assumption
    · assumption
    · assumption
    · exact reprPyFloat_no_dash c.strike hneg
    · rw [hmult]; exact pyStrInt_no_dash m hm
    · assumption
    · assumption
  have hv : parseFloatChars (reprPyFloat c.strike).toList = some c.strike :=
    parseFloatChars_reprPyFloat c.strike hfr hlast
  have hmparse : parseIntChars (pyStrMult c.multiplier).toList = some m := by
    rw [hmult]
    exact parseIntChars_pyStrInt m hm
  rw [encode_opt c hst,
      decode_body_opt _ c.symbol c.lastTradeDateOrContractMonth c.right
        (reprPyFloat c.strike) (pyStrMult c.multiplier) c.currency c.secType e es hE hsplit hst
        c.strike hv m hmparse]
  obtain ⟨csym, cst, ccur, cex, clt, cr, cstk, cm⟩ := c
  simp only at hex hmult
  rw [hex, hmult]

theorem strtrip_stock (sym cur st : String) (e : Exchange) (es : String)
    (hE : EXCHANGE_VT2IB e = some es)
    (hs : '-' ∉ sym.toList) (hc : '-' ∉ cur.toList) (ht : '-' ∉ st.toList)
    (hst : st ∉ (["FUT", "OPT", "FOP"] : List String)) :
    (generate_ib_contract (joinSym [sym, cur, st]) e).map (Option.map generate_symbol)
      = Except.ok (some (joinSym [sym, cur, st])) := by
  have hsplit : splitFields (joinSym [sym, cur, st]) = [sym, cur, st] := by
    apply splitFields_joinSym _ (by simp)
    intro f hf
    simp at hf
    rcases hf with rfl | rfl | rfl <;> assumption
  rw [decode_body_stock _ sym cur st e es hE hsplit hst]
  simp only [Except.map, Option.map]
  rw [encode_stock _ hst]

theorem strtrip_fut (sym lt cur : String) (e : Exchange) (es : String)
    (hE : EXCHANGE_VT2IB e = some es)
    (hs : '-' ∉ sym.toList) (hlt : '-' ∉ lt.toList) (hc : '-' ∉ cur.toList) :
    (generate_ib_contract (joinSym [sym, lt, cur, "FUT"]) e).map (Option.map generate_symbol)
      = Except.ok (some (joinSym [sym, lt, cur, "FUT"])) := by
  have hsplit : splitFields (joinSym [sym, lt, cur, "FUT"]) = [sym, lt, cur, "FUT"] := by
    apply splitFields_joinSym _ (by simp)
    intro f hf
    simp at hf
    rcases hf with rfl | rfl | rfl | rfl
    · assumption
    · assumption
    · assumption
    · decide
  rw [decode_body_fut _ sym lt cur e es hE hsplit]
  simp only [Except.map, Option.map]
  rw [encode_fut _ rfl]

theorem strtrip_opt (sym lt r cur st : String) (e : Exchange) (es : String)
    (v : PyFloatVal) (m : Int)
    (hE : EXCHANGE_VT2IB e = some es)
    (hs : '-' ∉ sym.toList) (hlt : '-' ∉ lt.toList) (hrt : '-' ∉ r.toList)
    (hc : '-' ∉ cur.toList)
    (hst : st = "OPT" ∨ st = "FOP")
    (hneg : v.neg = false) (hfr : ∀ d ∈ v.frac, d < 10)
    (hlast : v.frac.getLast? ≠ some 0) (hm : 0 ≤ m) :
    (generate_ib_contract (joinSym [sym, lt, r, reprPyFloat v, pyStrInt m, cur, st]) e).map
        (Option.map generate_symbol)
      = Except.ok (some (joinSym [sym, lt, r, reprPyFloat v, pyStrInt m, cur, st])) := by
  have hstd : '-' ∉ st.toList := by
    rcases hst with h | h <;> rw [h] <;> decide
  have hsplit : splitFields (joinSym [sym, lt, r, reprPyFloat v, pyStrInt m, cur, st])
      = [sym, lt, r, reprPyFloat v, pyStrInt m, cur, st] := by
    apply splitFields_joinSym _ (by simp)
    intro f hf
    simp at hf
    rcases hf with rfl | rfl | rfl | rfl | rfl | rfl | rfl
    · assumption
    · assumption
    · assumption
    · exact reprPyFloat_no_dash v hneg
    · exact pyStrInt_no_dash m hm
    · assumption
    · assumption
  rw [decode_body_opt _ sym lt r (reprPyFloat v) (pyStrInt m) cur st e es hE hsplit hst
      v (parseFloatChars_reprPyFloat v hfr hlast) m (parseIntChars_pyStrInt m hm)]
  simp only [Except.map, Option.map]
  rw [encode_opt _ hst]
  rfl

/-- Claim C1, counterexample: the codec is not an exact inverse pair.
`generate_ib_contract` accepts the five-field futures symbol
`SI-202006-1000-USD-FUT` (from the repository's own docstring) and
records its multiplier, but `generate_symbol` never emits a futures
multiplier, so `encode (decode s) = "SI-202006-USD-FUT" ≠ s`, and
`decode (encode x)` loses `x`'s multiplier. -/
theorem C1_codec_roundtrip_counterexample :
    generate_ib_contract "SI-202006-1000-USD-FUT" Exchange.NYMEX
        = Except.ok (some siFutContract) ∧
    generate_symbol siFutContract = "SI-202006-USD-FUT" ∧
    generate_symbol siFutContract ≠ "SI-202006-1000-USD-FUT" ∧
    generate_ib_contract (generate_symbol siFutContract) Exchange.NYMEX
        = Except.ok (some { siFutContract with multiplier := none }) ∧
    ({ siFutContract with multiplier := none } : Contract) ≠ siFutContract := by
  decide

/-- Claim C1 (amended): the codec is an exact inverse pair on the
security types whose fields it preserves — equity/cash/spot contracts,
futures carrying no multiplier, and options whose strike is a
nonnegative canonical decimal and whose multiplier is nonnegative — and
on the canonical dash-joined strings of those shapes (for options the
strike field must be written in Python float-repr form, e.g. `2430.0`).
Five-field futures symbols (with a multiplier) are excluded: encode
drops the multiplier there, as the counterexample shows. -/
theorem C1_codec_roundtrip_amended :
    (∀ (c : Contract) (e : Exchange) (es : String),
      EXCHANGE_VT2IB e = some es → c.exchange = es →
      '-' ∉ c.symbol.toList → '-' ∉ c.currency.toList → '-' ∉ c.secType.toList →
      c.secType ∉ (["FUT", "OPT", "FOP"] : List String) →
      c.lastTradeDateOrContractMonth = "" → c.right = "" →
      c.strike = {} → c.multiplier = none →
      generate_ib_contract (generate_symbol c) e = Except.ok (some c)) ∧
    (∀ (c : Contract) (e : Exchange) (es : String),
      EXCHANGE_VT2IB e = some es → c.exchange = es →
      '-' ∉ c.symbol.toList → '-' ∉ c.currency.toList →
      '-' ∉ c.lastTradeDateOrContractMonth.toList →
      c.secType = "FUT" → c.right = "" → c.strike = {} → c.multiplier = none →
      generate_ib_contract (generate_symbol c) e = Except.ok (some c)) ∧
    (∀ (c : Contract) (e : Exchange) (es : String) (m : Int),
      EXCHANGE_VT2IB e = some es → c.exchange = es →
      '-' ∉ c.symbol.toList → '-' ∉ c.currency.toList →
      '-' ∉ c.lastTradeDateOrContractMonth.toList → '-' ∉ c.right.toList →
      (c.secType = "OPT" ∨ c.secType = "FOP") →
      c.strike.neg = false → (∀ d ∈ c.strike.frac, d < 10) →
      c.strike.frac.getLast? ≠ some 0 →
      c.multiplier = some m → 0 ≤ m →
      generate_ib_contract (generate_symbol c) e = Except.ok (some c)) ∧
    (∀ (sym cur st : String) (e : Exchange) (es : String),
      EXCHANGE_VT2IB e = some es →
      '-' ∉ sym.toList → '-' ∉ cur.toList → '-' ∉ st.toList →
      st ∉ (["FUT", "OPT", "FOP"] : List String) →
      (generate_ib_contract (joinSym [sym, cur, st]) e).map (Option.map generate_symbol)
        = Except.ok (some (joinSym [sym, cur, st]))) ∧
    (∀ (sym lt cur : String) (e : Exchange) (es : String),
      EXCHANGE_VT2IB e = some es →
      '-' ∉ sym.toList → '-' ∉ lt.toList → '-' ∉ cur.toList →
      (generate_ib_contract (joinSym [sym, lt, cur, "FUT"]) e).map (Option.map generate_symbol)
        = Except.ok (some (joinSym [sym, lt, cur, "FUT"]))) ∧
    (∀ (sym lt r cur st : String) (e : Exchange) (es : String) (v : PyFloatVal) (m : Int),
      EXCHANGE_VT2IB e = some es →
      '-' ∉ sym.toList → '-' ∉ lt.toList → '-' ∉ r.toList → '-' ∉ cur.toList →
      (st = "OPT" ∨ st = "FOP") →
      v.neg = false → (∀ d ∈ v.frac, d < 10) → v.frac.getLast? ≠ some 0 → 0 ≤ m →
      (generate_ib_contract (joinSym [sym, lt, r, reprPyFloat v, pyStrInt m, cur, st]) e).map
          (Option.map generate_symbol)
        = Except.ok (some (joinSym [sym, lt, r, reprPyFloat v, pyStrInt m, cur, st]))) := by
  refine ⟨?_, ?_, ?_, ?_, ?_, ?_⟩
  · intro c e es hE hex hs hc ht hst hlt hr hstrike hmult
    exact roundtrip_stock c e es hE hex hs hc ht hst hlt hr hstrike hmult
  · intro c e es hE hex hs hc hlt hst hr hstrike hmult
    exact roundtrip_fut c e es hE hex hs hc hlt hst hr hstrike hmult
  · intro c e es m hE hex hs hc hlt hrt hst hneg hfr hlast hmult hm
    exact roundtrip_opt c e es m hE hex hs hc hlt hrt hst hneg hfr hlast hmult hm
  · intro sym cur st e es hE hs hc ht hst
    exact strtrip_stock sym cur st e es hE hs hc ht hst
  · intro sym lt cur e es hE hs hlt hc
    exact strtrip_fut sym lt cur e es hE hs hlt hc
  · intro sym lt r cur st e es v m hE hs hlt hrt hc hst hneg hfr hlast hm
    exact strtrip_opt sym lt r cur st e es v m hE hs hlt hrt hc hst hneg hfr hlast hm

/-- Claim C1 witness: the amended round-trip evaluated at the concrete
contracts `EUR-USD-CASH` (IDEALPRO) and the header's FOP contract. -/
theorem C1_codec_roundtrip_amended_witness :
    generate_ib_contract
        (generate_symbol { symbol := "EUR", secType := "CASH", currency := "USD",
                           exchange := "IDEALPRO" }) Exchange.IDEALPRO
      = Except.ok (some { symbol := "EUR", secType := "CASH", currency := "USD",
                          exchange := "IDEALPRO" }) ∧
    generate_ib_contract (generate_symbol esFopContract) Exchange.GLOBEX
      = Except.ok (some esFopContract) :=
  ⟨C1_codec_roundtrip_amended.1
      { symbol := "EUR", secType := "CASH", currency := "USD", exchange := "IDEALPRO" }
      Exchange.IDEALPRO "IDEALPRO" (by decide) rfl (by decide) (by decide) (by decide)
      (by decide) rfl rfl rfl rfl,
   C1_codec_roundtrip_amended.2.2.1 esFopContract Exchange.GLOBEX "GLOBEX" 50
      (by decide) rfl (by decide) (by decide) (by decide) (by decide) (Or.inr rfl)
      rfl (by decide) (by decide) rfl (by decide)⟩

theorem dget_dinsert_self {κ β : Type} [DecidableEq κ] (m : List (κ × β)) (k : κ) (v : β) :
    dget (dinsert m k v) k = some v := by
  induction m with
  | nil => simp [dinsert, dget]
  | cons p rest ih =>
    obtain ⟨k', v'⟩ := p
    by_cases h : k = k'
    · simp [dinsert, dget, h]
    · simp [dinsert, dget, h, ih]

theorem dget_dinsert_ne {κ β : Type} [DecidableEq κ] (m : List (κ × β)) (k k' : κ) (v : β)
    (h : k' ≠ k) : dget (dinsert m k v) k' = dget m k' := by
  induction m with
  | nil => simp [dinsert, dget, h]
  | cons p rest ih =>
    obtain ⟨k2, v2⟩ := p
    by_cases h2 : k = k2
    · rw [← h2]
      simp [dinsert, dget, h]
    · by_cases h3 : k' = k2 <;> simp [dinsert, dget, h2, h3, ih]

theorem foldl_subscribe (reqs : List SubscribeRequest) (s : IbApiState) :
    reqs.foldl IbApi.subscribe s
      = { s with subscribeRequest_queue := s.subscribeRequest_queue ++ reqs } := by
  induction reqs generalizing s with
  | nil => simp
  | cons r t ih =>
    rw [List.foldl_cons, ih]
    simp [IbApi.subscribe]

theorem step_idle_not_ready (s : IbApiState) (h : s.data_ready = false) :
    IbApi.subscribeRunnerStep s = (s, []) := by
  simp [IbApi.subscribeRunnerStep, h]

theorem step_dup_drop (s : IbApiState) (r : SubscribeRequest)
    (rest : List SubscribeRequest)
    (hcr : s.workerCrashed = false) (hst : s.status = true) (hdr : s.data_ready = true)
    (hq : s.subscribeRequest_queue = r :: rest)
    (hex : (EXCHANGE_VT2IB r.exchange).isSome)
    (hdup : (dget s.subscribed r.vt_symbol).isSome) :
    IbApi.subscribeRunnerStep s = ({ s with subscribeRequest_queue := rest }, []) := by
  obtain ⟨es, hes⟩ := Option.isSome_iff_exists.mp hex
  obtain ⟨rv, hrv⟩ := Option.isSome_iff_exists.mp hdup
  rw [IbApi.subscribeRunnerStep, hcr, hst, hdr, hq]
  simp [hes, hrv]

theorem step_process (s : IbApiState) (r : SubscribeRequest)
    (rest : List SubscribeRequest) (c : Contract)
    (hcr : s.workerCrashed = false) (hst : s.status = true) (hdr : s.data_ready = true)
    (hq : s.subscribeRequest_queue = r :: rest)
    (hex : (EXCHANGE_VT2IB r.exchange).isSome)
    (hdup : dget s.subscribed r.vt_symbol = none)
    (hp : generate_ib_contract r.symbol r.exchange = Except.ok (some c)) :
    IbApi.subscribeRunnerStep s =
      ({ s with subscribeRequest_queue := rest,
                subscribed := dinsert s.subscribed r.vt_symbol r,
                reqid := s.reqid + 1 + 1,
                ticks := dinsert s.ticks (s.reqid + 1 + 1)
                  { symbol := r.symbol, exchange := r.exchange,
                    datetime := s.now, gateway_name := s.gateway_name },
                tick_exchange := dinsert s.tick_exchange (s.reqid + 1 + 1) r.exchange },
       [Effect.reqContractDetails (s.reqid + 1) c,
        Effect.writeLog "pre-subscribe reqid",
        Effect.reqMktData (s.reqid + 1 + 1) c,
        Effect.writeLog "post-subscribe reqid"]) := by
  obtain ⟨es, hes⟩ := Option.isSome_iff_exists.mp hex
  rw [IbApi.subscribeRunnerStep, hcr, hst, hdr, hq]
  simp [hes, hdup, hp]

theorem runSteps_succ (n : Nat) (s : IbApiState) :
    runSteps (n + 1) s
      = ((runSteps n (IbApi.subscribeRunnerStep s).1).1,
         (IbApi.subscribeRunnerStep s).2
           ++ (runSteps n (IbApi.subscribeRunnerStep s).1).2) := rfl

theorem drainQueue (q : List SubscribeRequest) :
    ∀ (s : IbApiState),
      s.workerCrashed = false → s.status = true → s.data_ready = true →
      s.subscribeRequest_queue = q →
      (∀ r ∈ q, (EXCHANGE_VT2IB r.exchange).isSome) →
      (∀ r ∈ q, ∃ c, generate_ib_contract r.symbol r.exchange = Except.ok (some c)) →
      (∀ r ∈ q, dget s.subscribed r.vt_symbol = none) →
      q.Pairwise (fun a b => a.vt_symbol ≠ b.vt_symbol) →
      (runSteps q.length s).1.subscribeRequest_queue = [] ∧
      mktContracts (runSteps q.length s).2 = q.map contractOf := by
  induction q with
  | nil =>
    intro s _ _ _ hq _ _ _ _
    simp [runSteps, hq, mktContracts]
  | cons r rest ih =>
    intro s hcr hst hdr hq hex hparse hfresh hpair
    obtain ⟨c, hc⟩ := hparse r (by simp)
    have hco : contractOf r = c := by
      unfold contractOf
      rw [hc]
    have hstep := step_process s r rest c hcr hst hdr hq
      (hex r (by simp)) (hfresh r (by simp)) hc
    have h1 : (IbApi.subscribeRunnerStep s).1.workerCrashed = false := by
      rw [hstep]; exact hcr
    have h2 : (IbApi.subscribeRunnerStep s).1.status = true := by
      rw [hstep]; exact hst
    have h3 : (IbApi.subscribeRunnerStep s).1.data_ready = true := by
      rw [hstep]; exact hdr
    have h4 : (IbApi.subscribeRunnerStep s).1.subscribeRequest_queue = rest := by
      rw [hstep]
    have h5 : (IbApi.subscribeRunnerStep s).1.subscribed
        = dinsert s.subscribed r.vt_symbol r := by
      rw [hstep]
    have heff : (IbApi.subscribeRunnerStep s).2
        = [Effect.reqContractDetails (s.reqid + 1) c,
           Effect.writeLog "pre-subscribe reqid",
           Effect.reqMktData (s.reqid + 1 + 1) c,
           Effect.writeLog "post-subscribe reqid"] := by
      rw [hstep]
    have hrest := ih (IbApi.subscribeRunnerStep s).1 h1 h2 h3 h4
      (fun x hx => hex x (by simp [hx]))
      (fun x hx => hparse x (by simp [hx]))
      (fun x hx => by
        have hne : x.vt_symbol ≠ r.vt_symbol :=
          ((List.pairwise_cons.mp hpair).1 x hx).symm
        rw [h5, dget_dinsert_ne _ _ _ _ hne]
        exact hfresh x (by simp [hx]))
      (List.pairwise_cons.mp hpair).2
    rw [List.length_cons, runSteps_succ, heff]
    refine ⟨hrest.1, ?_⟩
    rw [List.map_cons, ← hrest.2, ← hco]
    simp [mktContracts]

theorem error_1101_state (s : IbApiState) (rid : Int) :
    (IbApi.error s rid 1101).1
      = { s with order_ready := true, data_ready := true, subscribed := [],
                 subscribeRequest_queue := s.subscribeRequest_queue ++ dvalues s.subscribed } := by
  unfold IbApi.error
  simp [foldl_subscribe]

theorem error_1102_state (s : IbApiState) (rid : Int) :
    (IbApi.error s rid 1102).1 = { s with order_ready := true, data_ready := true } := by
  unfold IbApi.error
  simp

theorem nextValidId_state (s : IbApiState) (oid : Nat) :
    (IbApi.nextValidId s oid).1
      = { s with orderid := if s.orderid = 0 then oid else s.orderid,
                 order_ready := true, data_ready := true, subscribed := [],
                 subscribeRequest_queue := s.subscribeRequest_queue ++ dvalues s.subscribed,
                 workerThreads := s.workerThreads + 1 } := by
  unfold IbApi.nextValidId
  simp [foldl_subscribe]

theorem nextValidId_effects (s : IbApiState) (oid : Nat) :
    (IbApi.nextValidId s oid).2 = [Effect.reqCurrentTime, Effect.startWorkerThread] := rfl

theorem mktContracts_error (s : IbApiState) (rid code : Int) :
    mktContracts (IbApi.error s rid code).2 = [] := by
  unfold IbApi.error
  split_ifs <;> simp [mktContracts]

/-- Claim C4: the subscription worker never consumes the queue while
`data_ready` is false (so queued requests are retained); once readiness
holds, running one iteration per queued request processes every
retained request — issuing one market-data subscription per valid,
fresh request, in order, with none re-submitted by the caller — and a
request whose canonical symbol is already in the subscribed set is
consumed silently: no broker call, no log, the dedup set unchanged. -/
theorem C4_worker_gating_dedup :
    (∀ s : IbApiState, s.data_ready = false → IbApi.subscribeRunnerStep s = (s, [])) ∧
    (∀ (q : List SubscribeRequest) (s : IbApiState),
      s.workerCrashed = false → s.status = true → s.data_ready = true →
      s.subscribeRequest_queue = q →
      (∀ r ∈ q, (EXCHANGE_VT2IB r.exchange).isSome) →
      (∀ r ∈ q, ∃ c, generate_ib_contract r.symbol r.exchange = Except.ok (some c)) →
      (∀ r ∈ q, dget s.subscribed r.vt_symbol = none) →
      q.Pairwise (fun a b => a.vt_symbol ≠ b.vt_symbol) →
      (runSteps q.length s).1.subscribeRequest_queue = [] ∧
      mktContracts (runSteps q.length s).2 = q.map contractOf) ∧
    (∀ (s : IbApiState) (r : SubscribeRequest) (rest : List SubscribeRequest),
      s.workerCrashed = false → s.status = true → s.data_ready = true →
      s.subscribeRequest_queue = r :: rest →
      (EXCHANGE_VT2IB r.exchange).isSome →
      (dget s.subscribed r.vt_symbol).isSome →
      IbApi.subscribeRunnerStep s = ({ s with subscribeRequest_queue := rest }, [])) :=
  ⟨step_idle_not_ready, fun q s => drainQueue q s, step_dup_drop⟩

/-- Claim C4 witness: the worker gate, drain, and dedup behaviour at
the concrete states above. -/
theorem C4_worker_gating_dedup_witness :
    IbApi.subscribeRunnerStep wStateIdle = (wStateIdle, []) ∧
    ((runSteps 2 wStateReady).1.subscribeRequest_queue = [] ∧
      mktContracts (runSteps 2 wStateReady).2 = [wReqEur, wReqSpy].map contractOf) ∧
    IbApi.subscribeRunnerStep wStateDup
      = ({ wStateDup with subscribeRequest_queue := [] }, []) :=
  ⟨C4_worker_gating_dedup.1 wStateIdle rfl,
   C4_worker_gating_dedup.2.1 [wReqEur, wReqSpy] wStateReady rfl rfl rfl rfl
     (by decide)
     (by
       intro r hr
       simp only [List.mem_cons, List.not_mem_nil, or_false] at hr
       rcases hr with rfl | rfl
       · exact ⟨{ symbol := "EUR", secType := "CASH", currency := "USD",
                  exchange := "IDEALPRO" }, by decide⟩
       · exact ⟨{ symbol := "SPY", secType := "STK", currency := "USD",
                  exchange := "SMART" }, by decide⟩)
     (by decide) (by decide),
   C4_worker_gating_dedup.2.2 wStateDup wReqEur [] rfl rfl rfl rfl (by decide) (by decide)⟩

/-- Claim C3: an error-1101 callback sets both readiness flags and
re-enqueues every tracked instrument (clearing the dedup set); an
error-1102 callback sets both flags and issues no re-subscription; and
with exactly two tracked subscriptions, error-1101 followed immediately
by handshake completion and two worker iterations issues exactly two
market-data subscription requests — one per instrument, in order, no
duplicates, no drops. -/
theorem C3_reconnect_resubscribe :
    (∀ (s : IbApiState) (rid : Int),
      (IbApi.error s rid 1101).1.order_ready = true ∧
      (IbApi.error s rid 1101).1.data_ready = true ∧
      (IbApi.error s rid 1101).1.subscribeRequest_queue
        = s.subscribeRequest_queue ++ dvalues s.subscribed ∧
      (IbApi.error s rid 1101).1.subscribed = []) ∧
    (∀ (s : IbApiState) (rid : Int),
      (IbApi.error s rid 1102).1 = { s with order_ready := true, data_ready := true } ∧
      mktContracts (IbApi.error s rid 1102).2 = []) ∧
    (∀ (s : IbApiState) (oid : Nat) (r1 r2 : SubscribeRequest),
      s.workerCrashed = false → s.status = true →
      s.subscribeRequest_queue = [] →
      s.subscribed = [(r1.vt_symbol, r1), (r2.vt_symbol, r2)] →
      r1.vt_symbol ≠ r2.vt_symbol →
      (EXCHANGE_VT2IB r1.exchange).isSome → (EXCHANGE_VT2IB r2.exchange).isSome →
      (∃ c, generate_ib_contract r1.symbol r1.exchange = Except.ok (some c)) →
      (∃ c, generate_ib_contract r2.symbol r2.exchange = Except.ok (some c)) →
      mktContracts (reconnectScenario s oid).2 = [contractOf r1, contractOf r2] ∧
      (reconnectScenario s oid).1.subscribeRequest_queue = []) := by
  refine ⟨?_, ?_, ?_⟩
  · intro s rid
    refine ⟨?_, ?_, ?_, ?_⟩ <;> rw [error_1101_state]
  · intro s rid
    exact ⟨error_1102_state s rid, mktContracts_error s rid 1102⟩
  · intro s oid r1 r2 hcr hst hq hsub hne hex1 hex2 hp1 hp2
    have hB : (IbApi.nextValidId (IbApi.error s 0 1101).1 oid).1
        = { s with orderid := if s.orderid = 0 then oid else s.orderid,
                   order_ready := true, data_ready := true, subscribed := [],
                   subscribeRequest_queue := [r1, r2],
                   workerThreads := s.workerThreads + 1 } := by
      rw [nextValidId_state, error_1101_state]
      simp [hq, hsub, dvalues]
    have hdrain := drainQueue [r1, r2] (IbApi.nextValidId (IbApi.error s 0 1101).1 oid).1
      (by rw [hB]; exact hcr)
      (by rw [hB]; exact hst)
      (by rw [hB])
      (by rw [hB])
      (by
        intro x hx
        simp only [List.mem_cons, List.not_mem_nil, or_false] at hx
        rcases hx with rfl | rfl
        · exact hex1
        · exact hex2)
      (by
        intro x hx
        simp only [List.mem_cons, List.not_mem_nil, or_false] at hx
        rcases hx with rfl | rfl
        · exact hp1
        · exact hp2)
      (by
        intro x hx
        rw [hB]
        rfl)
      (by simp [List.pairwise_cons, hne])
    have hlen : ([r1, r2] : List SubscribeRequest).length = 2 := rfl
    rw [hlen] at hdrain
    have heq : (reconnectScenario s oid).2
        = ((IbApi.error s 0 1101).2
          ++ (IbApi.nextValidId (IbApi.error s 0 1101).1 oid).2)
          ++ (runSteps 2 (IbApi.nextValidId (IbApi.error s 0 1101).1 oid).1).2 := rfl
    have heq1 : (reconnectScenario s oid).1
        = (runSteps 2 (IbApi.nextValidId (IbApi.error s 0 1101).1 oid).1).1 := rfl
    constructor
    · rw [heq]
      have hca : ∀ a b : List Effect, mktContracts (a ++ b) = mktContracts a ++ mktContracts b := by
        intro a b
        simp [mktContracts, List.filterMap_append]
      rw [hca, hca, mktContracts_error, nextValidId_effects, hdrain.2]
      rfl
    · rw [heq1, hdrain.1]

/-- Claim C3 witness: the reconnect scenario evaluated with two
concrete tracked instruments, and the 1101/1102 flag behaviour at that
state. -/
theorem C3_reconnect_resubscribe_witness :
    (mktContracts (reconnectScenario wStateSub2 7).2
        = [contractOf wReqEur, contractOf wReqSpy] ∧
      (reconnectScenario wStateSub2 7).1.subscribeRequest_queue = []) ∧
    (IbApi.error wStateSub2 3 1101).1.order_ready = true ∧
    (IbApi.error wStateSub2 3 1102).1
      = { wStateSub2 with order_ready := true, data_ready := true } :=
  ⟨C3_reconnect_resubscribe.2.2 wStateSub2 7 wReqEur wReqSpy rfl rfl rfl rfl
      (by decide) (by decide) (by decide)
      ⟨{ symbol := "EUR", secType := "CASH", currency := "USD",
         exchange := "IDEALPRO" }, by decide⟩
      ⟨{ symbol := "SPY", secType := "STK", currency := "USD",
         exchange := "SMART" }, by decide⟩,
   (C3_reconnect_resubscribe.1 wStateSub2 3).1,
   (C3_reconnect_resubscribe.2.1 wStateSub2 3).1⟩

/-- Claim C10, counterexample: the worker thread is not started exactly
once per session.  `nextValidId` starts a worker unconditionally, so
two handshake-completion callbacks with `status` true throughout (a
soft reconnect) leave two live worker threads — neither can have
exited, since a worker exits only on observing `status = false`. -/
theorem C10_worker_once_counterexample :
    (IbApi.nextValidId (IbApi.nextValidId c10state 5).1 6).1.workerThreads = 2 ∧
    (IbApi.nextValidId (IbApi.nextValidId c10state 5).1 6).1.status = true ∧
    IbApi.workerLoopExit (IbApi.nextValidId (IbApi.nextValidId c10state 5).1 6).1
      = (IbApi.nextValidId (IbApi.nextValidId c10state 5).1 6).1 := by
  decide

/-- Claim C10 (amended): a subscription-worker thread is started on
every handshake-completion callback, not once per session; a worker
exits exactly when it observes `status = false`; hence two handshake
completions with no intervening disconnect leave two workers running
concurrently. -/
theorem C10_worker_once_amended :
    (∀ (s : IbApiState) (oid : Nat),
      (IbApi.nextValidId s oid).1.workerThreads = s.workerThreads + 1) ∧
    (∀ s : IbApiState, s.status = true → IbApi.workerLoopExit s = s) ∧
    (∀ s : IbApiState, s.status = false →
      IbApi.workerLoopExit s = { s with workerThreads := s.workerThreads - 1 }) ∧
    (∀ (s : IbApiState) (oid1 oid2 : Nat),
      (IbApi.nextValidId (IbApi.nextValidId s oid1).1 oid2).1.workerThreads
        = s.workerThreads + 2) := by
  refine ⟨?_, ?_, ?_, ?_⟩
  · intro s oid
    rw [nextValidId_state]
  · intro s h
    unfold IbApi.workerLoopExit
    rw [h]
    simp
  · intro s h
    unfold IbApi.workerLoopExit
    rw [h]
    simp
  · intro s oid1 oid2
    rw [nextValidId_state, nextValidId_state]

/-- Claim C10 witness: the amended statements at the concrete connected
state. -/
theorem C10_worker_once_amended_witness :
    (IbApi.nextValidId c10state 5).1.workerThreads = 1 ∧
    IbApi.workerLoopExit c10state = c10state ∧
    IbApi.workerLoopExit { c10state with status := false }
      = { { c10state with status := false } with workerThreads := 0 } ∧
    (IbApi.nextValidId (IbApi.nextValidId c10state 5).1 6).1.workerThreads = 2 :=
  ⟨C10_worker_once_amended.1 c10state 5,
   C10_worker_once_amended.2.1 c10state rfl,
   C10_worker_once_amended.2.2.1 { c10state with status := false } rfl,
   C10_worker_once_amended.2.2.2 c10state 5 6⟩

/-- Claim C5, counterexample: connection status and order-readiness
hold and both the exchange and the order type are mapped, yet
`send_order` returns `""` with no broker call and no order record —
and it has still advanced the local order-id counter.  The claim's
"otherwise" clause (allocate, submit, emit, return the reference) does
not cover this malformed-symbol path. -/
theorem C5_send_order_counterexample :
    c5state.status = true ∧ c5state.order_ready = true ∧
    (EXCHANGE_VT2IB c5req.exchange).isSome = true ∧
    (ORDERTYPE_VT2IB c5req.type).isSome = true ∧
    IbApi.send_order c5state c5req
      = ({ c5state with orderid := 1 }, [], Except.ok "") := by
  decide

/-- Claim C5 (amended): `send_order` returns `""` with no broker call
and no emitted record when status or order-readiness is false or the
exchange or order type is unmapped; it also returns `""` with no broker
call when the symbol fails to parse into a contract — that path still
advances the local order-id counter; otherwise it allocates the next
order id, places the order, requests the next id in advance, emits a
`Submitting` record synthesized locally, and returns that record's
reference. -/
theorem C5_send_order_amended :
    (∀ (s : IbApiState) (req : OrderRequest), s.status = false →
      IbApi.send_order s req = (s, [], Except.ok "")) ∧
    (∀ (s : IbApiState) (req : OrderRequest), s.status = true → s.order_ready = false →
      IbApi.send_order s req
        = (s, [Effect.writeLog "not ready to place orders"], Except.ok "")) ∧
    (∀ (s : IbApiState) (req : OrderRequest), s.status = true → s.order_ready = true →
      EXCHANGE_VT2IB req.exchange = none →
      IbApi.send_order s req
        = (s, [Effect.writeLog "unsupported exchange"], Except.ok "")) ∧
    (∀ (s : IbApiState) (req : OrderRequest), s.status = true → s.order_ready = true →
      (EXCHANGE_VT2IB req.exchange).isSome → ORDERTYPE_VT2IB req.type = none →
      IbApi.send_order s req
        = (s, [Effect.writeLog "unsupported order type"], Except.ok "")) ∧
    (∀ (s : IbApiState) (req : OrderRequest), s.status = true → s.order_ready = true →
      (EXCHANGE_VT2IB req.exchange).isSome → (ORDERTYPE_VT2IB req.type).isSome →
      generate_ib_contract req.symbol req.exchange = Except.ok none →
      IbApi.send_order s req = ({ s with orderid := s.orderid + 1 }, [], Except.ok "")) ∧
    (∀ (s : IbApiState) (req : OrderRequest) (c : Contract) (act : String),
      s.status = true → s.order_ready = true →
      (EXCHANGE_VT2IB req.exchange).isSome → (ORDERTYPE_VT2IB req.type).isSome →
      generate_ib_contract req.symbol req.exchange = Except.ok (some c) →
      DIRECTION_VT2IB req.direction = some act →
      IbApi.send_order s req
        = ({ s with orderid := s.orderid + 1 },
           [Effect.placeOrder (s.orderid + 1) c
              { orderId := s.orderid + 1, clientId := s.clientid, action := act,
                orderType := (ORDERTYPE_VT2IB req.type).getD "",
                totalQuantity := req.volume, account := s.account, outsideRth := true,
                lmtPrice := if req.type = OrderType.LIMIT then req.price else 0,
                auxPrice := if req.type = OrderType.STOP then req.price else 0 },
            Effect.reqIds 1,
            Effect.onOrder { req.create_order_data (pyStrNat (s.orderid + 1)) s.gateway_name
                              with datetime := some s.now }],
           Except.ok (s.gateway_name ++ "." ++ pyStrNat (s.orderid + 1))) ∧
      ({ req.create_order_data (pyStrNat (s.orderid + 1)) s.gateway_name
          with datetime := some s.now } : OrderData).status = Status.SUBMITTING) := by
  refine ⟨?_, ?_, ?_, ?_, ?_, ?_⟩
  · intro s req h
    simp [IbApi.send_order, h]
  · intro s req h1 h2
    simp [IbApi.send_order, h1, h2]
  · intro s req h1 h2 h3
    simp [IbApi.send_order, h1, h2, h3]
  · intro s req h1 h2 h3 h4
    obtain ⟨es, hes⟩ := Option.isSome_iff_exists.mp h3
    simp [IbApi.send_order, h1, h2, hes, h4]
  · intro s req h1 h2 h3 h4 h5
    obtain ⟨es, hes⟩ := Option.isSome_iff_exists.mp h3
    obtain ⟨ot, hot⟩ := Option.isSome_iff_exists.mp h4
    simp [IbApi.send_order, h1, h2, hes, hot, h5]
  · intro s req c act h1 h2 h3 h4 h5 h6
    obtain ⟨es, hes⟩ := Option.isSome_iff_exists.mp h3
    obtain ⟨ot, hot⟩ := Option.isSome_iff_exists.mp h4
    refine ⟨?_, rfl⟩
    simp [IbApi.send_order, h1, h2, hes, hot, h5, h6,
          OrderData.vt_orderid, OrderRequest.create_order_data]

/-- Claim C5 witness: the amended cases at the concrete state, covering
the not-connected, not-ready, and successful-submission paths. -/
theorem C5_send_order_amended_witness :
    IbApi.send_order { c5state with status := false } c5reqGood
      = ({ c5state with status := false }, [], Except.ok "") ∧
    IbApi.send_order { c5state with order_ready := false } c5reqGood
      = ({ c5state with order_ready := false },
         [Effect.writeLog "not ready to place orders"], Except.ok "") ∧
    IbApi.send_order c5state c5reqGood
      = ({ c5state with orderid := 1 },
         [Effect.placeOrder 1
            { symbol := "EUR", secType := "CASH", currency := "USD",
              exchange := "IDEALPRO" }
            { orderId := 1, clientId := 0, action := "BUY", orderType := "LMT",
              totalQuantity := 1, account := "", outsideRth := true,
              lmtPrice := 5, auxPrice := 0 },
          Effect.reqIds 1,
          Effect.onOrder { c5reqGood.create_order_data (pyStrNat 1) "IB"
                            with datetime := some 0 }],
         Except.ok ("IB" ++ "." ++ pyStrNat 1)) :=
  ⟨C5_send_order_amended.1 { c5state with status := false } c5reqGood rfl,
   C5_send_order_amended.2.1 { c5state with order_ready := false } c5reqGood rfl rfl,
   by
    have h := (C5_send_order_amended.2.2.2.2.2 c5state c5reqGood
      { symbol := "EUR", secType := "CASH", currency := "USD", exchange := "IDEALPRO" }
      "BUY" rfl rfl (by decide) (by decide) (by decide) (by decide)).1
    rw [h]
    decide⟩

theorem orderStatus_known (s : IbApiState) (oid : Nat) (st : String) (f : ℚ)
    (o : OrderData) (h : dget s.orders (pyStrNat oid) = some o) :
    IbApi.orderStatus s oid st f
      = ({ s with orders := (dinsert s.orders (pyStrNat oid)
            (match STATUS_IB2VT st with
             | some x => { o with traded := f, status := x }
             | none => { o with traded := f })) },
         [Effect.onOrder (match STATUS_IB2VT st with
             | some x => { o with traded := f, status := x }
             | none => { o with traded := f }),
          Effect.writeLog "orderStatus"]) := by
  unfold IbApi.orderStatus
  dsimp only
  rw [h]

/-- Claim C6: an order-status callback for an unknown order id is
dropped without creating a record or raising; an unrecognized status
string on a known order updates `traded` but leaves the status field
unchanged; and the sequence `Submitted`, `XYZ-unknown`, `Filled`
leaves the stored status `ALLTRADED`, with the middle callback never
regressing it below `NOTTRADED`. -/
theorem C6_status_monotonic :
    (∀ (s : IbApiState) (oid : Nat) (st : String) (f : ℚ),
      dget s.orders (pyStrNat oid) = none →
      IbApi.orderStatus s oid st f = (s, [])) ∧
    (∀ (s : IbApiState) (oid : Nat) (st : String) (f : ℚ) (o : OrderData),
      dget s.orders (pyStrNat oid) = some o → STATUS_IB2VT st = none →
      IbApi.orderStatus s oid st f
        = ({ s with orders := (dinsert s.orders (pyStrNat oid) { o with traded := f }) },
           [Effect.onOrder { o with traded := f }, Effect.writeLog "orderStatus"])) ∧
    (∀ (s : IbApiState) (oid : Nat) (o : OrderData) (f1 f2 f3 : ℚ),
      dget s.orders (pyStrNat oid) = some o →
      (dget (IbApi.orderStatus s oid "Submitted" f1).1.orders (pyStrNat oid)).map
          OrderData.status = some Status.NOTTRADED ∧
      (dget (IbApi.orderStatus (IbApi.orderStatus s oid "Submitted" f1).1 oid
          "XYZ-unknown" f2).1.orders (pyStrNat oid)).map
          OrderData.status = some Status.NOTTRADED ∧
      (dget (IbApi.orderStatus (IbApi.orderStatus (IbApi.orderStatus s oid
          "Submitted" f1).1 oid "XYZ-unknown" f2).1 oid "Filled" f3).1.orders
          (pyStrNat oid)).map OrderData.status = some Status.ALLTRADED) := by
  refine ⟨?_, ?_, ?_⟩
  · intro s oid st f h
    simp [IbApi.orderStatus, h]
  · intro s oid st f o h hst
    rw [orderStatus_known s oid st f o h, hst]
  · intro s oid o f1 f2 f3 h
    have h1 := orderStatus_known s oid "Submitted" f1 o h
    rw [show STATUS_IB2VT "Submitted" = some Status.NOTTRADED from rfl] at h1
    have hg1 : dget (IbApi.orderStatus s oid "Submitted" f1).1.orders (pyStrNat oid)
        = some { o with traded := f1, status := Status.NOTTRADED } := by
      rw [h1]
      exact dget_dinsert_self _ _ _
    have h2 := orderStatus_known (IbApi.orderStatus s oid "Submitted" f1).1 oid
      "XYZ-unknown" f2 _ hg1
    rw [show STATUS_IB2VT "XYZ-unknown" = none from rfl] at h2
    have hg2 : dget (IbApi.orderStatus (IbApi.orderStatus s oid "Submitted" f1).1 oid
          "XYZ-unknown" f2).1.orders (pyStrNat oid)
        = some { o with traded := f2, status := Status.NOTTRADED } := by
      rw [h2]
      exact dget_dinsert_self _ _ _
    have h3 := orderStatus_known (IbApi.orderStatus (IbApi.orderStatus s oid
      "Submitted" f1).1 oid "XYZ-unknown" f2).1 oid "Filled" f3 _ hg2
    rw [show STATUS_IB2VT "Filled" = some Status.ALLTRADED from rfl] at h3
    refine ⟨?_, ?_, ?_⟩
    · rw [hg1]
      rfl
    · rw [hg2]
      rfl
    · rw [h3]
      rw [dget_dinsert_self]
      rfl

/-- Claim C6 witness: unknown-id drop, unknown-status preservation and
the Submitted / unknown / Filled sequence at the concrete state. -/
theorem C6_status_monotonic_witness :
    IbApi.orderStatus c6state 8 "Filled" 3 = (c6state, []) ∧
    IbApi.orderStatus c6state 9 "Zzz" 2
      = ({ c6state with orders := (dinsert c6state.orders (pyStrNat 9)
            { c6order with traded := 2 }) },
         [Effect.onOrder { c6order with traded := 2 },
          Effect.writeLog "orderStatus"]) ∧
    (dget (IbApi.orderStatus (IbApi.orderStatus (IbApi.orderStatus c6state 9
        "Submitted" 1).1 9 "XYZ-unknown" 2).1 9 "Filled" 3).1.orders
        (pyStrNat 9)).map OrderData.status = some Status.ALLTRADED :=
  ⟨C6_status_monotonic.1 c6state 8 "Filled" 3 (by decide),
   C6_status_monotonic.2.1 c6state 9 "Zzz" 2 c6order (by decide) (by decide),
   (C6_status_monotonic.2.2 c6state 9 c6order 1 2 3 (by decide)).2.2⟩

/-- Claim C7, counterexample: the open-order callback does not preserve
the existing record's status.  Order "1" is tracked with status
`NOTTRADED`; after `openOrder` for the same id the stored record's
status is the callback's default `SUBMITTING` — the whole record was
replaced, not merged. -/
theorem C7_open_order_counterexample :
    (dget c7state.orders "1").map OrderData.status = some Status.NOTTRADED ∧
    (match IbApi.openOrder c7state 1 c7contract c7iborder with
     | Except.ok (s', _) => (dget s'.orders "1").map OrderData.status
     | Except.error _ => none) = some Status.SUBMITTING := by
  decide

/-- Claim C7 (amended): an open-order callback for a tracked order id
replaces the stored record wholesale: the parameters (symbol, type,
direction, volume, price) come from the callback, the status field is
reset to the default `Submitting` rather than preserving the previous
status, `traded` resets to zero — and no order event is emitted for
it. -/
theorem C7_open_order_amended :
    ∀ (s : IbApiState) (oid : Nat) (c : Contract) (io : IbOrder)
      (prev : OrderData) (t : OrderType) (d : Direction),
      dget s.orders (pyStrNat oid) = some prev →
      ORDERTYPE_IB2VT io.orderType = some t →
      DIRECTION_IB2VT io.action = some d →
      ∃ s', IbApi.openOrder s oid c io = Except.ok (s', []) ∧
        (dget s'.orders (pyStrNat oid)).map OrderData.status = some Status.SUBMITTING ∧
        (dget s'.orders (pyStrNat oid)).map OrderData.traded = some 0 ∧
        (dget s'.orders (pyStrNat oid)).map OrderData.symbol
          = some (generate_symbol c) ∧
        (dget s'.orders (pyStrNat oid)).map OrderData.type = some t ∧
        (dget s'.orders (pyStrNat oid)).map OrderData.direction = some (some d) ∧
        (dget s'.orders (pyStrNat oid)).map OrderData.volume = some io.totalQuantity := by
  intro s oid c io prev t d hprev hot hdir
  have hstep : IbApi.openOrder s oid c io
      = Except.ok ({ s with orders := (dinsert s.orders (pyStrNat oid)
          { symbol := generate_symbol c,
            exchange := (EXCHANGE_IB2VT c.exchange).getD Exchange.SMART,
            type := t, orderid := pyStrNat oid, direction := some d,
            volume := io.totalQuantity, gateway_name := s.gateway_name,
            price := if t = OrderType.LIMIT then io.lmtPrice
                     else if t = OrderType.STOP then io.auxPrice else 0 }) }, []) := by
    unfold IbApi.openOrder
    rw [hot, hdir]
    cases t <;> rfl
  refine ⟨_, hstep, ?_, ?_, ?_, ?_, ?_, ?_⟩ <;>
    · rw [dget_dinsert_self]
      rfl

/-- Claim C7 witness: the amended replacement behaviour at the concrete
tracked order. -/
theorem C7_open_order_amended_witness :
    ∃ s', IbApi.openOrder c7state 1 c7contract c7iborder = Except.ok (s', []) ∧
      (dget s'.orders (pyStrNat 1)).map OrderData.status = some Status.SUBMITTING ∧
      (dget s'.orders (pyStrNat 1)).map OrderData.traded = some 0 ∧
      (dget s'.orders (pyStrNat 1)).map OrderData.symbol
        = some (generate_symbol c7contract) ∧
      (dget s'.orders (pyStrNat 1)).map OrderData.type = some OrderType.LIMIT ∧
      (dget s'.orders (pyStrNat 1)).map OrderData.direction
        = some (some Direction.LONG) ∧
      (dget s'.orders (pyStrNat 1)).map OrderData.volume
        = some c7iborder.totalQuantity :=
  C7_open_order_amended c7state 1 c7contract c7iborder c7prev OrderType.LIMIT
    Direction.LONG (by decide) (by decide) (by decide)

theorem barDateExc_ok (d : String) (dt : PyDateTime) (h : parseBarDate d = some dt) :
    barDateExc d = Except.ok dt := by
  unfold parseBarDate at h
  unfold barDateExc
  by_cases hl : d.length > 8
  · rw [if_pos hl] at h ⊢
    rw [h]
  · rw [if_neg hl] at h ⊢
    by_cases hy : isYmd d
    · rw [if_pos hy] at h
      rw [if_pos hy]
      simp at h
      rw [h]
    · rw [if_neg hy] at h
      simp at h

theorem historicalData_ok (s : IbApiState) (b : IbBar) (req : HistoryRequest)
    (hreq : s.history_req = some req) (hd : (parseBarDate b.date).isSome) :
    IbApi.historicalData s b
      = Except.ok { s with
          history_buf := s.history_buf ++ [mkBarOf req s.gateway_name b] } := by
  obtain ⟨dt, hdt⟩ := Option.isSome_iff_exists.mp hd
  unfold IbApi.historicalData
  rw [barDateExc_ok b.date dt hdt]
  simp only [exc_bind_ok]
  rw [hreq]
  unfold mkBarOf
  rw [hdt]
  simp only [Option.getD_some]
  by_cases hv : b.volume < 0 <;> simp [hv]

theorem deliverBars_ok (bars : List IbBar) :
    ∀ (s : IbApiState) (req : HistoryRequest),
      s.history_req = some req →
      (∀ b ∈ bars, (parseBarDate b.date).isSome) →
      deliverBars s bars
        = Except.ok { s with history_buf :=
            s.history_buf ++ bars.map (mkBarOf req s.gateway_name) } := by
  induction bars with
  | nil =>
    intro s req _ _
    simp [deliverBars, exc_pure]
  | cons b t ih =>
    intro s req h hall
    have h1 := historicalData_ok s b req h (hall b (by simp))
    have hstep : deliverBars s (b :: t)
        = IbApi.historicalData s b >>= fun s2 => deliverBars s2 t := rfl
    rw [hstep, h1, exc_bind_ok]
    rw [ih _ req (by rw [← h]) (fun x hx => hall x (by simp [hx]))]
    simp

theorem query_start_ok (s : IbApiState) (req : HistoryRequest) (cd : ContractData)
    (bs : String) (oc : Option Contract)
    (hc : dget s.contracts req.vt_symbol = some cd)
    (hi : INTERVAL_VT2IB req.interval = some bs)
    (hg : generate_ib_contract req.symbol req.exchange = Except.ok oc) :
    ∃ eff, IbApi.query_history_start s req
      = ({ s with history_req := some req, reqid := s.reqid + 1,
                  history_reqid := s.reqid + 1 }, [eff], none) := by
  cases hE : req.end_ with
  | none =>
    exact ⟨Effect.reqHistoricalData (s.reqid + 1) oc ""
        (pyStrInt (min (s.nowDay - req.start) 180) ++ " D") bs
        (if cd.product = Product.SPOT ∨ cd.product = Product.FOREX then "MIDPOINT"
         else "TRADES"),
      by simp [IbApi.query_history_start, hc, hg, hi, hE]⟩
  | some e =>
    exact ⟨Effect.reqHistoricalData (s.reqid + 1) oc ("end " ++ pyStrInt e)
        (pyStrInt (min (e - req.start) 180) ++ " D") bs
        (if cd.product = Product.SPOT ∨ cd.product = Product.FOREX then "MIDPOINT"
         else "TRADES"),
      by simp [IbApi.query_history_start, hc, hg, hi, hE]⟩

/-- Claim C2 (amended): issuing a historical query and delivering `N`
bar callbacks followed by one completion callback makes the blocking
call return exactly those `N` bars, in arrival order; on wake the
bridge swaps out the result buffer (leaving it empty) and clears the
in-flight request descriptor (`history_req`), so it is ready for the
next query — but the numeric in-flight request id (`history_reqid`) is
not cleared: it retains the finished query's id until the next query
overwrites it. -/
theorem C2_history_query_amended :
    ∀ (s : IbApiState) (req : HistoryRequest) (ibBars : List IbBar)
      (cd : ContractData) (bs : String) (oc : Option Contract),
      dget s.contracts req.vt_symbol = some cd →
      INTERVAL_VT2IB req.interval = some bs →
      generate_ib_contract req.symbol req.exchange = Except.ok oc →
      s.history_buf = [] →
      (∀ b ∈ ibBars, (parseBarDate b.date).isSome) →
      IbApi.runHistQuery s req ibBars
          = some (histFinalState s, ibBars.map (mkBarOf req s.gateway_name)) ∧
      (histFinalState s).history_buf = [] ∧
      (histFinalState s).history_req = none ∧
      (histFinalState s).history_reqid = s.reqid + 1 := by
  intro s req ibBars cd bs oc hc hi hg hbuf hdates
  obtain ⟨eff, hstart⟩ := query_start_ok s req cd bs oc hc hi hg
  have hdel := deliverBars_ok ibBars
    { s with history_req := some req, reqid := s.reqid + 1,
             history_reqid := s.reqid + 1 } req rfl hdates
  refine ⟨?_, rfl, rfl, rfl⟩
  unfold IbApi.runHistQuery
  rw [hstart]
  dsimp only
  rw [hdel]
  dsimp only [IbApi.historicalDataEnd, IbApi.query_history_finish, histFinalState]
  rw [hbuf]
  rfl

/-- Claim C2, counterexample: after a full query cycle the numeric
in-flight request id is not cleared.  The bridge returns the delivered
bar, swaps the buffer out and clears `history_req`, but
`history_reqid` still holds the finished query's id `1` rather than
the no-query-in-flight value `0`. -/
theorem C2_history_query_counterexample :
    IbApi.runHistQuery c2state c2req [c2bar]
        = some (histFinalState c2state, [mkBarOf c2req "IB" c2bar]) ∧
    (histFinalState c2state).history_req = none ∧
    (histFinalState c2state).history_reqid = 1 ∧
    (histFinalState c2state).history_reqid ≠ 0 := by
  decide

/-- Claim C2 witness: the amended statement at the concrete forex
query, with one delivered bar whose negative placeholder volume is
clamped to zero. -/
theorem C2_history_query_amended_witness :
    IbApi.runHistQuery c2state c2req [c2bar]
        = some (histFinalState c2state, [c2bar].map (mkBarOf c2req "IB")) ∧
    (histFinalState c2state).history_buf = [] ∧
    (histFinalState c2state).history_req = none ∧
    (histFinalState c2state).history_reqid = 1 :=
  C2_history_query_amended c2state c2req [c2bar] c2contract "1 min"
    (some { symbol := "EUR", secType := "CASH", currency := "USD",
            exchange := "IDEALPRO" })
    (by decide) (by decide) (by decide) (by decide)
    (by
      intro b hb
      simp only [List.mem_singleton] at hb
      rw [hb]
      decide)

/-- Every name produced by `TICKFIELD_IB2VT` is one of the eleven
`TickData` field names. -/
theorem tickfield_names (t : Nat) (n : String) (h : TICKFIELD_IB2VT t = some n) :
    n = "bid_volume_1" ∨ n = "bid_price_1" ∨ n = "ask_price_1" ∨
    n = "ask_volume_1" ∨ n = "last_price" ∨ n = "last_volume" ∨
    n = "high_price" ∨ n = "low_price" ∨ n = "volume" ∨
    n = "pre_close" ∨ n = "open_price" := by
  unfold TICKFIELD_IB2VT at h
  by_cases hc0 : t = 0
  · rw [if_pos hc0] at h
    exact Or.inl (Option.some.inj h).symm
  rw [if_neg hc0] at h
  by_cases hc1 : t = 1
  · rw [if_pos hc1] at h
    exact Or.inr (Or.inl (Option.some.inj h).symm)
  rw [if_neg hc1] at h
  by_cases hc2 : t = 2
  · rw [if_pos hc2] at h
    exact Or.inr (Or.inr (Or.inl (Option.some.inj h).symm))
  rw [if_neg hc2] at h
  by_cases hc3 : t = 3
  · rw [if_pos hc3] at h
    exact Or.inr (Or.inr (Or.inr (Or.inl (Option.some.inj h).symm)))
  rw [if_neg hc3] at h
  by_cases hc4 : t = 4
  · rw [if_pos hc4] at h
    exact
      Or.inr (Or.inr (Or.inr (Or.inr (Or.inl (Option.some.inj h).symm))))
  rw [if_neg hc4] at h
  by_cases hc5 : t = 5
  · rw [if_pos hc5] at h
    exact
      Or.inr (Or.inr (Or.inr (Or.inr (Or.inr (Or.inl (Option.some.inj h).symm)))))
  rw [if_neg hc5] at h
  by_cases hc6 : t = 6
  · rw [if_pos hc6] at h
    exact
      Or.inr (Or.inr (Or.inr (Or.inr (Or.inr (Or.inr (Or.inl (Option.some.inj h).symm))))))
  rw [if_neg hc6] at h
  by_cases hc7 : t = 7
  · rw [if_pos hc7] at h
    exact
      Or.inr (Or.inr (Or.inr (Or.inr (Or.inr (Or.inr (Or.inr (Or.inl (Option.some.inj h).symm)))))))
  rw [if_neg hc7] at h
  by_cases hc8 : t = 8
  · rw [if_pos hc8] at h
    exact
      Or.inr (Or.inr (Or.inr (Or.inr (Or.inr (Or.inr (Or.inr (Or.inr (Or.inl (Option.some.inj h).symm))))))))
  rw [if_neg hc8] at h
  by_cases hc9 : t = 9
  · rw [if_pos hc9] at h
    exact
      Or.inr (Or.inr (Or.inr (Or.inr (Or.inr (Or.inr (Or.inr (Or.inr (Or.inr (Or.inl (Option.some.inj h).symm)))))))))
  rw [if_neg hc9] at h
  by_cases hc14 : t = 14
  · rw [if_pos hc14] at h
    exact
      Or.inr (Or.inr (Or.inr (Or.inr (Or.inr (Or.inr (Or.inr (Or.inr (Or.inr (Or.inr ((Option.some.inj h).symm))))))))))
  rw [if_neg hc14] at h
  exact absurd h (by simp)

set_option maxHeartbeats 1000000 in
/-- Reading a tick field just written by `setattr` returns the written
value, for each of the eleven mapped field names. -/
theorem getTickField_set_same (t : TickData) (n : String) (v : ℚ)
    (hn : n = "bid_volume_1" ∨ n = "bid_price_1" ∨ n = "ask_price_1" ∨
      n = "ask_volume_1" ∨ n = "last_price" ∨ n = "last_volume" ∨
      n = "high_price" ∨ n = "low_price" ∨ n = "volume" ∨
      n = "pre_close" ∨ n = "open_price") :
    getTickField (setTickField t n v) n = v := by
  rcases hn with rfl | rfl | rfl | rfl | rfl | rfl | rfl | rfl | rfl | rfl | rfl <;> rfl

/-- Updating the `bid_volume_1` field leaves every other mapped field read
unchanged. -/
theorem gset_ne_bid_volume_1 (t : TickData) (m : String) (v : ℚ)
    (hne : m ≠ "bid_volume_1") :
    getTickField { t with bid_volume_1 := v } m = getTickField t m := by
  rw [getTickField.eq_def, getTickField.eq_def, if_neg hne, if_neg hne]

/-- Updating the `bid_price_1` field leaves every other mapped field read
unchanged. -/
theorem gset_ne_bid_price_1 (t : TickData) (m : String) (v : ℚ)
    (hne : m ≠ "bid_price_1") :
    getTickField { t with bid_price_1 := v } m = getTickField t m := by
  rw [getTickField.eq_def, getTickField.eq_def, if_neg hne, if_neg hne]

/-- Updating the `ask_price_1` field leaves every other mapped field read
unchanged. -/
theorem gset_ne_ask_price_1 (t : TickData) (m : String) (v : ℚ)
    (hne : m ≠ "ask_price_1") :
    getTickField { t with ask_price_1 := v } m = getTickField t m := by
  rw [getTickField.eq_def, getTickField.eq_def, if_neg hne, if_neg hne]

/-- Updating the `ask_volume_1` field leaves every other mapped field read
unchanged. -/
theorem gset_ne_ask_volume_1 (t : TickData) (m : String) (v : ℚ)
    (hne : m ≠ "ask_volume_1") :
    getTickField { t with ask_volume_1 := v } m = getTickField t m := by
  rw [getTickField.eq_def, getTickField.eq_def, if_neg hne, if_neg hne]

/-- Updating the `last_price` field leaves every other mapped field read
unchanged. -/
theorem gset_ne_last_price (t : TickData) (m : String) (v : ℚ)
    (hne : m ≠ "last_price") :
    getTickField { t with last_price := v } m = getTickField t m := by
  rw [getTickField.eq_def, getTickField.eq_def, if_neg hne, if_neg hne]

/-- Updating the `last_volume` field leaves every other mapped field read
unchanged. -/
theorem gset_ne_last_volume (t : TickData) (m : String) (v : ℚ)
    (hne : m ≠ "last_volume") :
    getTickField { t with last_volume := v } m = getTickField t m := by
  rw [getTickField.eq_def, getTickField.eq_def, if_neg hne, if_neg hne]

/-- Updating the `high_price` field leaves every other mapped field read
unchanged. -/
theorem gset_ne_high_price (t : TickData) (m : String) (v : ℚ)
    (hne : m ≠ "high_price") :
    getTickField { t with high_price := v } m = getTickField t m := by
  rw [getTickField.eq_def, getTickField.eq_def, if_neg hne, if_neg hne]

/-- Updating the `low_price` field leaves every other mapped field read
unchanged. -/
theorem gset_ne_low_price (t : TickData) (m : String) (v : ℚ)
    (hne : m ≠ "low_price") :
    getTickField { t with low_price := v } m = getTickField t m := by
  rw [getTickField.eq_def, getTickField.eq_def, if_neg hne, if_neg hne]

/-- Updating the `volume` field leaves every other mapped field read
unchanged. -/
theorem gset_ne_volume (t : TickData) (m : String) (v : ℚ)
    (hne : m ≠ "volume") :
    getTickField { t with volume := v } m = getTickField t m := by
  rw [getTickField.eq_def, getTickField.eq_def, if_neg hne, if_neg hne]

/-- Updating the `pre_close` field leaves every other mapped field read
unchanged. -/
theorem gset_ne_pre_close (t : TickData) (m : String) (v : ℚ)
    (hne : m ≠ "pre_close") :
    getTickField { t with pre_close := v } m = getTickField t m := by
  rw [getTickField.eq_def, getTickField.eq_def, if_neg hne, if_neg hne]

/-- Updating the `open_price` field leaves every other mapped field read
unchanged. -/
theorem gset_ne_open_price (t : TickData) (m : String) (v : ℚ)
    (hne : m ≠ "open_price") :
    getTickField { t with open_price := v } m = getTickField t m := by
  rw [getTickField.eq_def, getTickField.eq_def, if_neg hne, if_neg hne]

/-- Writing one mapped field and reading a different name returns the
old value of that name. -/
theorem getTickField_set_ne (t : TickData) (n m : String) (v : ℚ)
    (hn : n = "bid_volume_1" ∨ n = "bid_price_1" ∨ n = "ask_price_1" ∨
      n = "ask_volume_1" ∨ n = "last_price" ∨ n = "last_volume" ∨
      n = "high_price" ∨ n = "low_price" ∨ n = "volume" ∨
      n = "pre_close" ∨ n = "open_price")
    (hne : m ≠ n) :
    getTickField (setTickField t n v) m = getTickField t m := by
  rcases hn with rfl | rfl | rfl | rfl | rfl | rfl | rfl | rfl | rfl | rfl | rfl
  · exact gset_ne_bid_volume_1 t m v hne
  · exact gset_ne_bid_price_1 t m v hne
  · exact gset_ne_ask_price_1 t m v hne
  · exact gset_ne_ask_volume_1 t m v hne
  · exact gset_ne_last_price t m v hne
  · exact gset_ne_last_volume t m v hne
  · exact gset_ne_high_price t m v hne
  · exact gset_ne_low_price t m v hne
  · exact gset_ne_volume t m v hne
  · exact gset_ne_pre_close t m v hne
  · exact gset_ne_open_price t m v hne

/-- The `name` field is not one of the mapped numeric fields, so setting
it does not change any mapped read. -/
theorem getTickField_name_irrelevant (t : TickData) (nm m : String) :
    getTickField { t with name := nm } m = getTickField t m := by
  rw [getTickField.eq_def, getTickField.eq_def]

/-- The `datetime` field is not one of the mapped numeric fields, so
setting it does not change any mapped read. -/
theorem getTickField_datetime_irrelevant (t : TickData) (d : Nat) (m : String) :
    getTickField { t with datetime := d } m = getTickField t m := by
  rw [getTickField.eq_def, getTickField.eq_def]

set_option maxHeartbeats 1000000 in
/-- `setattr` on a mapped numeric field never changes the symbol. -/
theorem setTickField_symbol (t : TickData) (n : String) (v : ℚ) :
    (setTickField t n v).symbol = t.symbol := by
  rw [setTickField.eq_def]
  by_cases h0 : n = "bid_volume_1"
  · rw [if_pos h0]
  rw [if_neg h0]
  by_cases h1 : n = "bid_price_1"
  · rw [if_pos h1]
  rw [if_neg h1]
  by_cases h2 : n = "ask_price_1"
  · rw [if_pos h2]
  rw [if_neg h2]
  by_cases h3 : n = "ask_volume_1"
  · rw [if_pos h3]
  rw [if_neg h3]
  by_cases h4 : n = "last_price"
  · rw [if_pos h4]
  rw [if_neg h4]
  by_cases h5 : n = "last_volume"
  · rw [if_pos h5]
  rw [if_neg h5]
  by_cases h6 : n = "high_price"
  · rw [if_pos h6]
  rw [if_neg h6]
  by_cases h7 : n = "low_price"
  · rw [if_pos h7]
  rw [if_neg h7]
  by_cases h8 : n = "volume"
  · rw [if_pos h8]
  rw [if_neg h8]
  by_cases h9 : n = "pre_close"
  · rw [if_pos h9]
  rw [if_neg h9]
  by_cases h10 : n = "open_price"
  · rw [if_pos h10]
  rw [if_neg h10]

set_option maxHeartbeats 1000000 in
/-- `setattr` on a mapped numeric field never changes the exchange. -/
theorem setTickField_exchange (t : TickData) (n : String) (v : ℚ) :
    (setTickField t n v).exchange = t.exchange := by
  rw [setTickField.eq_def]
  by_cases h0 : n = "bid_volume_1"
  · rw [if_pos h0]
  rw [if_neg h0]
  by_cases h1 : n = "bid_price_1"
  · rw [if_pos h1]
  rw [if_neg h1]
  by_cases h2 : n = "ask_price_1"
  · rw [if_pos h2]
  rw [if_neg h2]
  by_cases h3 : n = "ask_volume_1"
  · rw [if_pos h3]
  rw [if_neg h3]
  by_cases h4 : n = "last_price"
  · rw [if_pos h4]
  rw [if_neg h4]
  by_cases h5 : n = "last_volume"
  · rw [if_pos h5]
  rw [if_neg h5]
  by_cases h6 : n = "high_price"
  · rw [if_pos h6]
  rw [if_neg h6]
  by_cases h7 : n = "low_price"
  · rw [if_pos h7]
  rw [if_neg h7]
  by_cases h8 : n = "volume"
  · rw [if_pos h8]
  rw [if_neg h8]
  by_cases h9 : n = "pre_close"
  · rw [if_pos h9]
  rw [if_neg h9]
  by_cases h10 : n = "open_price"
  · rw [if_pos h10]
  rw [if_neg h10]

/-- `vt_symbol` of a tick is unchanged by `setattr` on a mapped field. -/
theorem setTickField_vt_symbol (t : TickData) (n : String) (v : ℚ) :
    (setTickField t n v).vt_symbol = t.vt_symbol := by
  unfold TickData.vt_symbol
  rw [setTickField_symbol, setTickField_exchange]

/-- The contract-name copy does not touch the symbol written by the
price `setattr`. -/
theorem tickAfterPrice_symbol (s : IbApiState) (t0 : TickData) (pn : String) (pv : ℚ) :
    (tickAfterPrice s t0 pn pv).symbol = t0.symbol := by
  rw [tickAfterPrice.eq_def]
  dsimp only
  cases dget s.contracts (setTickField t0 pn pv).vt_symbol with
  | none => exact setTickField_symbol t0 pn pv
  | some contract => exact setTickField_symbol t0 pn pv

/-- The contract-name copy does not change any mapped numeric field. -/
theorem tickAfterPrice_get (s : IbApiState) (t0 : TickData) (pn m : String) (pv : ℚ) :
    getTickField (tickAfterPrice s t0 pn pv) m = getTickField (setTickField t0 pn pv) m := by
  rw [tickAfterPrice.eq_def]
  dsimp only
  cases dget s.contracts (setTickField t0 pn pv).vt_symbol with
  | none => rfl
  | some contract => exact getTickField_name_irrelevant (setTickField t0 pn pv) contract.name m

/-- The datetime stamp does not change any mapped numeric field. -/
theorem getTickField_stampTime (t : TickData) (d : Nat) (m : String) :
    getTickField (stampTime t d) m = getTickField t m :=
  getTickField_datetime_irrelevant t d m

/-- A price update alone never emits an effect, on any path of the
handler (the `on_tick` call is commented out in the source). -/
theorem tickPrice_no_effects (s : IbApiState) (reqId tickType : Nat) (price : ℚ) :
    (IbApi.tickPrice s reqId tickType price).2.1 = [] := by
  rw [IbApi.tickPrice.eq_def]
  cases dget s.ticks reqId with
  | none => rfl
  | some tick =>
    cases TICKFIELD_IB2VT tickType with
    | none => rfl
    | some name =>
      dsimp only
      cases dget s.tick_exchange reqId with
      | none => rfl
      | some exchange =>
        dsimp only
        by_cases hc : exchange = Exchange.IDEALPRO ∨
            strContains (tickAfterPrice s tick name price).symbol "CMDTY"
        · rw [if_pos hc]
          by_cases hb : (tickAfterPrice s tick name price).bid_price_1 = 0 ∨
              (tickAfterPrice s tick name price).ask_price_1 = 0
          · rw [if_pos hb]
          · rw [if_neg hb]
        · rw [if_neg hc]

theorem tickPrice_step (s : IbApiState) (reqId pt : Nat) (pv : ℚ)
    (t0 : TickData) (pn : String) (ex : Exchange)
    (h1 : dget s.ticks reqId = some t0)
    (h2 : TICKFIELD_IB2VT pt = some pn)
    (h4 : dget s.tick_exchange reqId = some ex)
    (hc : ¬(ex = Exchange.IDEALPRO ∨
      strContains (tickAfterPrice s t0 pn pv).symbol "CMDTY")) :
    IbApi.tickPrice s reqId pt pv = (tickPriceResult s reqId t0 pn pv, [], none) := by
  rw [IbApi.tickPrice.eq_def, h1, h2]
  dsimp only
  rw [h4]
  dsimp only
  rw [if_neg hc]
  rfl

/-- A tracked size update applies the `setattr`, stamps the time and
emits exactly one tick snapshot. -/
theorem tickSize_step (s : IbApiState) (reqId st : Nat) (sv : ℚ)
    (t1 : TickData) (sn : String)
    (h1 : dget s.ticks reqId = some t1)
    (h2 : TICKFIELD_IB2VT st = some sn) :
    IbApi.tickSize s reqId st sv =
      ({ s with ticks := dinsert s.ticks reqId (stampTime (setTickField t1 sn sv) s.now) },
       [Effect.onTick (stampTime (setTickField t1 sn sv) s.now)]) := by
  rw [IbApi.tickSize.eq_def, h1, h2]
  rfl

/-- Claim C8: a tick snapshot is only published after a size update.
For a subscribed instrument (off the forex/commodity midpoint path) a
price-update callback alone produces zero emissions, and a
price-update followed immediately by a size-update for a different
mapped field produces exactly one `on_tick` snapshot whose fields
carry both the new price and the new size. -/
theorem C8_tick_emission (s : IbApiState) (reqId pt st : Nat) (pv sv : ℚ)
    (t0 : TickData) (pn sn : String) (ex : Exchange)
    (h1 : dget s.ticks reqId = some t0)
    (h2 : TICKFIELD_IB2VT pt = some pn)
    (h3 : TICKFIELD_IB2VT st = some sn)
    (h4 : dget s.tick_exchange reqId = some ex)
    (h5 : ex ≠ Exchange.IDEALPRO)
    (h6 : strContains t0.symbol "CMDTY" = false)
    (h7 : pn ≠ sn) :
    (IbApi.tickPrice s reqId pt pv).2.1 = [] ∧
    ∃ tick, (priceThenSize s reqId pt st pv sv).2.1 = [Effect.onTick tick] ∧
      getTickField tick pn = pv ∧ getTickField tick sn = sv := by
  refine ⟨tickPrice_no_effects s reqId pt pv, ?_⟩
  have hc : ¬(ex = Exchange.IDEALPRO ∨
      strContains (tickAfterPrice s t0 pn pv).symbol "CMDTY" = true) := by
    rintro (h | h)
    · exact h5 h
    · rw [tickAfterPrice_symbol, h6] at h
      exact Bool.false_ne_true h
  have hp := tickPrice_step s reqId pt pv t0 pn ex h1 h2 h4 hc
  have hticks : dget (tickPriceResult s reqId t0 pn pv).ticks reqId
      = some (stampTime (tickAfterPrice s t0 pn pv) s.now) := by
    unfold tickPriceResult
    exact dget_dinsert_self _ _ _
  have hsz := tickSize_step (tickPriceResult s reqId t0 pn pv) reqId st sv
    (stampTime (tickAfterPrice s t0 pn pv) s.now) sn hticks h3
  refine ⟨stampTime (setTickField (stampTime (tickAfterPrice s t0 pn pv) s.now) sn sv)
    (tickPriceResult s reqId t0 pn pv).now, ?_, ?_, ?_⟩
  · unfold priceThenSize
    rw [hp]
    dsimp only
    rw [hsz]
    rfl
  · rw [getTickField_stampTime,
      getTickField_set_ne _ sn pn sv (tickfield_names st sn h3) h7,
      getTickField_stampTime, tickAfterPrice_get,
      getTickField_set_same t0 pn pv (tickfield_names pt pn h2)]
  · rw [getTickField_stampTime,
      getTickField_set_same _ sn sv (tickfield_names st sn h3)]

theorem C8_tick_emission_witness :
    (IbApi.tickPrice c8state 1 1 100).2.1 = [] ∧
    ∃ tick, (priceThenSize c8state 1 1 0 100 5).2.1 = [Effect.onTick tick] ∧
      getTickField tick "bid_price_1" = 100 ∧ getTickField tick "bid_volume_1" = 5 :=
  C8_tick_emission c8state 1 1 0 100 5 c8tick "bid_price_1" "bid_volume_1" Exchange.SMART
    rfl rfl rfl rfl (by decide) rfl (by decide)

/-- Claim C9: code bug.  `query_history` indexes
`self.contracts[req.vt_symbol]` directly, so an unknown instrument
raises `KeyError` out of the component instead of the intended
log-and-return-empty rejection: the `if not contract` guard right
below the lookup is unreachable for a missing key.  Concretely, on a
ready session with an empty contract cache the pre-wait phase raises
`KeyError` having emitted no log effect, and the complete blocking
call returns no bar list at all. -/
theorem C9_exception_escape :
    IbApi.query_history_start c9state c9req = (c9state, [], some PyError.keyError) ∧
    IbApi.runHistQuery c9state c9req [] = none :=
  ⟨rfl, rfl⟩
